import Mathlib

/-!
# wtf: the start-up sequence of `main` (src/wtf/wtf.cc)

A shallow embedding of `main`: the three subcommand callbacks that normalise and
validate the options, the backend-name table, and the straight-line start-up
sequence that builds the backend, initialises it, sanitises the CPU state and hands
control to the fuzz / run / master subcommand.

Everything `main` calls that lives outside `wtf.cc` (the filesystem, the random
device, the target registry, the debugger, the backend methods, the three
subcommand functions) is an input of the model, collected in `Env`. An execution of
`main` is the list of calls and messages it makes, in order, plus its exit code.

The model starts where CLI11 has bound the command line to `Opts` and is about to run
the callback of the chosen subcommand. A command line that CLI11 itself rejects (an
unknown option, a missing `--name`, a path that fails `ExistingDirectory`, a backend
name outside the table) ends inside `CLI11_PARSE` before any callback and before any
of the calls listed above.
-/

namespace Wtf

/-! ## Data model -/

/-- Modelled from the spec: the enum `BackendType_t` is declared in a header outside
`wtf.cc`; the spec names one emulation backend and two hardware-virtualization
variants, and `wtf.cc` uses exactly the enumerators `Bochscpu`, `Whv`, `Kvm`. -/
inductive BackendType_t where
  | Bochscpu
  | Whv
  | Kvm
  deriving DecidableEq, Repr

/-- Modelled from the spec: the enum `TraceType_t` is declared in a header outside
`wtf.cc`; the spec lists the trace types None, Rip, UniqueRip, Tenet and `wtf.cc`
uses the enumerators `NoTrace`, `Rip`, `UniqueRip`, `Tenet`. -/
inductive TraceType_t where
  | NoTrace
  | Rip
  | UniqueRip
  | Tenet
  deriving DecidableEq, Repr

/-- The build platform: which of the macros `WINDOWS` / `LINUX` (platform.h) is
defined. -/
inductive Platform where
  | Windows
  | Linux
  deriving DecidableEq, Repr

/-- The subcommand given on the command line (`Wtf.require_subcommand(1)`). -/
inductive Subcommand where
  | master
  | run
  | fuzz
  deriving DecidableEq, Repr

/-- A value of `fs::path`, as its string; `p.empty()` is `p = ""`. -/
abbrev Path := String

/-- The fields of `Opts.Run` that `main` reads or writes. -/
structure RunOptions_t where
  BaseTracePath : Path
  TraceType : TraceType_t
  deriving DecidableEq, Repr

/-- The fields of `Opts.Fuzz` that `main` reads or writes (`Seed` is a uint64_t). -/
structure FuzzOptions_t where
  TargetPath : Path
  Seed : Nat
  deriving DecidableEq, Repr

/-- The fields of `Opts.Master` that `main` reads or writes (`Seed` is a uint64_t). -/
structure MasterOptions_t where
  TargetPath : Path
  InputsPath : Path
  OutputsPath : Path
  CrashesPath : Path
  Seed : Nat
  deriving DecidableEq, Repr

/-- The fields of `Options_t` that `main` reads or writes. Options that are only
bound to a command-line flag and passed through untouched (`Verbose`, the addresses,
the run counts, `--max_len`, `--input`) are left out. -/
structure Options_t where
  TargetName : String
  StatePath : Path
  DumpPath : Path
  CpuStatePath : Path
  SymbolFilePath : Path
  GuestFilesPath : Path
  CoveragePath : Path
  Backend : BackendType_t
  Edges : Bool
  Limit : Nat
  Run : RunOptions_t
  Fuzz : FuzzOptions_t
  Master : MasterOptions_t
  deriving DecidableEq, Repr

/-- Everything `main` obtains from outside `wtf.cc`. Each external function is
called at most once on any path through `main`, so one result per function is
enough. -/
structure Env where
  /-- `fs::exists`. -/
  pathExists : Path → Bool
  /-- `fs::is_directory`. -/
  is_directory : Path → Bool
  /-- `fs::current_path()`. -/
  current_path : Path
  /-- `operator/` of `fs::path` with a literal component on the right. -/
  join : Path → String → Path
  /-- `fs::path::parent_path`. -/
  parent_path : Path → Path
  /-- The draw `R()` that is the left operand of `|` in the seed expression. -/
  drawHigh : Nat
  /-- The draw `R()` that is the right operand of `|` in the seed expression. -/
  drawLow : Nat
  /-- Whether `Targets.Get(name)` is non-null. -/
  TargetsGet : String → Bool
  /-- Return value of `MasterSubcommand`. -/
  MasterResult : Int
  /-- Return value of `LoadCpuStateFromJSON`. -/
  LoadCpuStateOk : Bool
  /-- Return value of `g_Dbg->Init`. -/
  DbgInitOk : Bool
  /-- Return value of `g_Backend->Initialize`. -/
  InitializeOk : Bool
  /-- Return value of `SanitizeCpuState`. -/
  SanitizeOk : Bool
  /-- Return value of `g_Backend->EnableSingleStep`. -/
  SingleStepOk : Bool
  /-- Return value of `g_Backend->Restore`. -/
  RestoreOk : Bool
  /-- Return value of `FuzzSubcommand`. -/
  FuzzResult : Int
  /-- Return value of `RunSubcommand`. -/
  RunResult : Int

/-- The value of the macro `EXIT_FAILURE` (cstdlib). -/
def EXIT_FAILURE : Int := 1

/-- A `CLI::ParseError(msg, exit_code)` thrown by a subcommand callback. -/
structure ParseError where
  what : String
  exit_code : Int
  deriving DecidableEq, Repr

/-- What a subcommand callback leaves behind: the lines it printed with `fmt::print`
and either the exception it threw or the options as it updated them. -/
structure CallbackResult where
  printed : List String
  result : Except ParseError Options_t

/-! ## The seed -/

/-- The expression `(uint64_t(R()) << 32) | R()`: `R()` yields an `unsigned int`
(32 bits), the left draw is widened to 64 bits and shifted, the right draw is widened
and or-ed in. -/
def randomSeed (high low : Nat) : Nat :=
  (((high % 2 ^ 32) <<< 32) % 2 ^ 64) ||| (low % 2 ^ 32)

/-! ## The run subcommand callback -/

/-- Lines 145-160 of the run callback: a trace path without a trace type gets the
default type of the backend. -/
def defaultTraceType (Opts : Options_t) : Options_t :=
  if Opts.Run.BaseTracePath ≠ "" ∧ Opts.Run.TraceType = TraceType_t.NoTrace then
    match Opts.Backend with
    | BackendType_t.Bochscpu =>
      { Opts with Run := { Opts.Run with TraceType := TraceType_t.Rip } }
    | BackendType_t.Whv =>
      { Opts with Run := { Opts.Run with TraceType := TraceType_t.UniqueRip } }
    | BackendType_t.Kvm =>
      { Opts with Run := { Opts.Run with TraceType := TraceType_t.UniqueRip } }
  else Opts

/-- Lines 167-170 of the run callback: a trace type without a trace path gets the
current working directory. -/
def defaultTracePath (env : Env) (Opts : Options_t) : Options_t :=
  if Opts.Run.TraceType ≠ TraceType_t.NoTrace ∧ Opts.Run.BaseTracePath = "" then
    { Opts with Run := { Opts.Run with BaseTracePath := env.current_path } }
  else Opts

/-- The line the run callback prints when it picks the `state` folder. -/
def foundStateText : String := "Found a 'state' folder in the cwd, so using it.\n"

/-- Lines 118-137 of the run callback: the state folder default and the paths derived
from the state path. Returns the printed lines and the updated options. -/
def runPaths (env : Env) (Opts : Options_t) : List String × Options_t :=
  let useState : Bool := decide (Opts.StatePath = "") && env.is_directory "state"
  let printed := if useState then [foundStateText] else []
  let StatePath := if useState then "state" else Opts.StatePath
  (printed,
    { Opts with
      StatePath := StatePath
      DumpPath := env.join StatePath "mem.dmp"
      CpuStatePath := env.join StatePath "regs.json"
      SymbolFilePath := env.join StatePath "symbol-store.json"
      GuestFilesPath :=
        if Opts.GuestFilesPath = "" then env.join (env.parent_path StatePath) "guest-files"
        else Opts.GuestFilesPath
      CoveragePath :=
        if Opts.CoveragePath = "" then env.join (env.parent_path StatePath) "coverage"
        else Opts.CoveragePath })

/-- The text of the capability error thrown by the run and fuzz callbacks. -/
def edgeErrorText : String := "Edge coverage is only available with the bxcpu backend."

/-- The text of the error the run callback throws when `mem.dmp` or `regs.json` is
missing (lines 177-179): the format string filled with `Opts.StatePath.string()`. -/
def runMissingText (Opts : Options_t) : String :=
  "Expected to find state/mem.dmp, state/regs.json files in '" ++ Opts.StatePath ++ "'."

/-- Lines 176-202 of the run callback: the three checks, in source order. -/
def runChecks (plat : Platform) (env : Env) (Opts : Options_t) : Except ParseError Options_t :=
  if !env.pathExists Opts.DumpPath || !env.pathExists Opts.CpuStatePath then
    Except.error ⟨runMissingText Opts, EXIT_FAILURE⟩
  else if Opts.Edges && decide (Opts.Backend ≠ BackendType_t.Bochscpu) then
    Except.error ⟨edgeErrorText, EXIT_FAILURE⟩
  else if decide (plat = Platform.Linux) && !env.pathExists Opts.SymbolFilePath then
    Except.error
      ⟨"Expected to find a state/symbol-store.json file in '" ++ Opts.Fuzz.TargetPath ++
          "'. You need to generate it from Windows.",
        EXIT_FAILURE⟩
  else Except.ok Opts

/-- The negation of the condition of lines 176 and 320, on the paths the callback of
the subcommand has derived: `mem.dmp` and `regs.json` exist in the state folder. The
master subcommand has no such check. -/
def stateFilesPresent (env : Env) (Opts : Options_t) : Bool :=
  env.pathExists Opts.DumpPath && env.pathExists Opts.CpuStatePath

/-- The options of the run subcommand after its normalisation (lines 118-170), before
the checks. -/
def normaliseRun (env : Env) (Opts : Options_t) : Options_t :=
  defaultTracePath env (defaultTraceType (runPaths env Opts).2)

/-- The run subcommand callback (lines 112-203): the normalisation, then the checks. -/
def RunCallback (plat : Platform) (env : Env) (Opts : Options_t) : CallbackResult :=
  ⟨(runPaths env Opts).1, runChecks plat env (normaliseRun env Opts)⟩

/-! ## The fuzz subcommand callback -/

/-- Lines 288-314 of the fuzz callback: the target path default and the paths derived
from it. -/
def fuzzPaths (env : Env) (Opts : Options_t) : Options_t :=
  let TargetPath := if Opts.Fuzz.TargetPath = "" then env.current_path else Opts.Fuzz.TargetPath
  let StatePath := if Opts.StatePath = "" then env.join TargetPath "state" else Opts.StatePath
  { Opts with
    Fuzz := { Opts.Fuzz with TargetPath := TargetPath }
    GuestFilesPath :=
      if Opts.GuestFilesPath = "" then env.join TargetPath "guest-files" else Opts.GuestFilesPath
    StatePath := StatePath
    CoveragePath :=
      if Opts.CoveragePath = "" then env.join TargetPath "coverage" else Opts.CoveragePath
    DumpPath := env.join StatePath "mem.dmp"
    CpuStatePath := env.join StatePath "regs.json"
    SymbolFilePath := env.join StatePath "symbol-store.json" }

/-- Lines 340-343 of the fuzz callback: a zero seed is drawn from the random
device. -/
def fuzzSeed (env : Env) (Opts : Options_t) : Options_t :=
  if Opts.Fuzz.Seed = 0 then
    { Opts with Fuzz := { Opts.Fuzz with Seed := randomSeed env.drawHigh env.drawLow } }
  else Opts

/-- The text of the error the fuzz callback throws when `mem.dmp` or `regs.json` is
missing (lines 322-325): the format string filled twice with
`Opts.Fuzz.TargetPath.string()`. -/
def fuzzMissingText (Opts : Options_t) : String :=
  "Expected to find mem.dmp/regs.json files in '" ++ Opts.Fuzz.TargetPath ++
    "/state', inputs/outputs/crashes directories in '" ++ Opts.Fuzz.TargetPath ++ "'."

/-- Lines 320-353 of the fuzz callback: the two checks, the seed, and the Linux-only
symbol store check, in source order. -/
def fuzzChecks (plat : Platform) (env : Env) (Opts : Options_t) : Except ParseError Options_t :=
  if !env.pathExists Opts.DumpPath || !env.pathExists Opts.CpuStatePath then
    Except.error ⟨fuzzMissingText Opts, EXIT_FAILURE⟩
  else if Opts.Edges && decide (Opts.Backend ≠ BackendType_t.Bochscpu) then
    Except.error ⟨edgeErrorText, EXIT_FAILURE⟩
  else
    let Seeded := fuzzSeed env Opts
    if decide (plat = Platform.Linux) && !env.pathExists Seeded.SymbolFilePath then
      Except.error
        ⟨"Expected to find a state/symbol-store.json file in '" ++ Seeded.Fuzz.TargetPath ++
            "'; you need to generate it from Windows.",
          EXIT_FAILURE⟩
    else Except.ok Seeded

/-- The fuzz subcommand callback (lines 283-354). -/
def FuzzCallback (plat : Platform) (env : Env) (Opts : Options_t) : CallbackResult :=
  ⟨[], fuzzChecks plat env (fuzzPaths env Opts)⟩

/-! ## The master subcommand callback -/

/-- Lines 39-58 of the master callback: the target path default and the three
directories derived from it. -/
def masterPaths (env : Env) (Opts : Options_t) : Options_t :=
  let TargetPath :=
    if Opts.Master.TargetPath = "" then env.current_path else Opts.Master.TargetPath
  { Opts with
    Master :=
      { Opts.Master with
        TargetPath := TargetPath
        InputsPath :=
          if Opts.Master.InputsPath = "" then env.join TargetPath "inputs"
          else Opts.Master.InputsPath
        OutputsPath :=
          if Opts.Master.OutputsPath = "" then env.join TargetPath "outputs"
          else Opts.Master.OutputsPath
        CrashesPath :=
          if Opts.Master.CrashesPath = "" then env.join TargetPath "crashes"
          else Opts.Master.CrashesPath } }

/-- Lines 70-73 of the master callback: a zero seed is drawn from the random
device. -/
def masterSeed (env : Env) (Opts : Options_t) : Options_t :=
  if Opts.Master.Seed = 0 then
    { Opts with Master := { Opts.Master with Seed := randomSeed env.drawHigh env.drawLow } }
  else Opts

/-- Lines 60-73 of the master callback: the directory check, then the seed. -/
def masterChecks (env : Env) (Opts : Options_t) : Except ParseError Options_t :=
  if !env.pathExists Opts.Master.InputsPath || !env.pathExists Opts.Master.OutputsPath ||
      !env.pathExists Opts.Master.CrashesPath then
    Except.error
      ⟨"Expected to find inputs/outputs/crashes directories in '" ++ Opts.Master.TargetPath ++
          "'.",
        EXIT_FAILURE⟩
  else Except.ok (masterSeed env Opts)

/-- The master subcommand callback (lines 34-74). -/
def MasterCallback (env : Env) (Opts : Options_t) : CallbackResult :=
  ⟨[], masterChecks env (masterPaths env Opts)⟩

/-! ## The backend table and the backend switch -/

/-- The table `BackendTypeMap` (lines 224-241) as built on each platform. -/
def BackendTypeMap (plat : Platform) : List (String × BackendType_t) :=
  [("bochscpu", BackendType_t.Bochscpu), ("bxcpu", BackendType_t.Bochscpu)] ++
    (match plat with
      | Platform.Windows => [("whv", BackendType_t.Whv)]
      | Platform.Linux => [("kvm", BackendType_t.Kvm)])

/-- The filter `CLI::ignore_case`: every character of the name in lower case. -/
def ignore_case (name : String) : String :=
  ⟨name.data.map Char.toLower⟩

/-- The `--backend` option of the run and fuzz subcommands (lines 247-249, 356-358),
`CLI::CheckedTransformer(BackendTypeMap, CLI::ignore_case)`: the name, compared without
case, is looked up in the table of the platform, whose keys are in lower case; a name
outside the table is refused (`none`) and `main` ends inside `CLI11_PARSE`. -/
def backendOption (plat : Platform) (name : String) : Option BackendType_t :=
  List.lookup (ignore_case name) (BackendTypeMap plat)

/-- The backends the `--backend` option can bind to `Opts.Backend` on a platform: the
values of the table. -/
def selectableBackends (plat : Platform) : List BackendType_t :=
  (BackendTypeMap plat).map Prod.snd

/-- The switch of lines 426-449: the backend `main` constructs, or `none` when the
`default` label is taken. -/
def constructBackend (plat : Platform) (b : BackendType_t) : Option BackendType_t :=
  match plat, b with
  | Platform.Windows, BackendType_t.Whv => some BackendType_t.Whv
  | Platform.Linux, BackendType_t.Kvm => some BackendType_t.Kvm
  | _, BackendType_t.Bochscpu => some BackendType_t.Bochscpu
  | _, _ => none

/-! ## Executions of `main` -/

/-- One observable step of `main`: a message or a call into code outside `wtf.cc`.
Calls that report success carry the result they returned. -/
inductive Event where
  /-- A line written with `fmt::print`. -/
  | print (text : String)
  /-- The message of a `CLI::ParseError`, reported by `CLI11_PARSE` through
  `Wtf.exit(e)`. -/
  | parseError (text : String)
  | TargetsGet (name : String) (found : Bool)
  | DisplayRegisteredTargets
  | MasterSubcommand (Opts : Options_t)
  | LoadCpuStateFromJSON (ok : Bool)
  /-- The expressions `new WhvBackend_t()`, `new KvmBackend_t()`,
  `new BochscpuBackend_t()`. -/
  | newBackend (b : BackendType_t)
  | DbgInit (ok : Bool)
  | SetLimit (n : Nat)
  | Initialize (ok : Bool)
  | SanitizeCpuState (ok : Bool)
  | EnableSingleStep (ok : Bool)
  | Restore (ok : Bool)
  | FuzzSubcommand (Opts : Options_t)
  | RunSubcommand (Opts : Options_t)
  deriving DecidableEq, Repr

/-- The kind of an event: which function was called, or which channel a message went
to, whatever the arguments and the result. -/
inductive Call where
  | print
  | parseError
  | TargetsGet
  | DisplayRegisteredTargets
  | MasterSubcommand
  | LoadCpuStateFromJSON
  | newBackend
  | DbgInit
  | SetLimit
  | Initialize
  | SanitizeCpuState
  | EnableSingleStep
  | Restore
  | FuzzSubcommand
  | RunSubcommand
  deriving DecidableEq, Repr

/-- The kind of an event. -/
def Event.call : Event → Call
  | Event.print _ => Call.print
  | Event.parseError _ => Call.parseError
  | Event.TargetsGet _ _ => Call.TargetsGet
  | Event.DisplayRegisteredTargets => Call.DisplayRegisteredTargets
  | Event.MasterSubcommand _ => Call.MasterSubcommand
  | Event.LoadCpuStateFromJSON _ => Call.LoadCpuStateFromJSON
  | Event.newBackend _ => Call.newBackend
  | Event.DbgInit _ => Call.DbgInit
  | Event.SetLimit _ => Call.SetLimit
  | Event.Initialize _ => Call.Initialize
  | Event.SanitizeCpuState _ => Call.SanitizeCpuState
  | Event.EnableSingleStep _ => Call.EnableSingleStep
  | Event.Restore _ => Call.Restore
  | Event.FuzzSubcommand _ => Call.FuzzSubcommand
  | Event.RunSubcommand _ => Call.RunSubcommand

/-- Is the event one of `Restore`, `FuzzSubcommand`, `RunSubcommand`: the work that the
start-up leads to? -/
def Event.isWork (e : Event) : Bool :=
  e.call == Call.Restore || e.call == Call.FuzzSubcommand || e.call == Call.RunSubcommand

/-- An execution of `main`: what it did, in order, and the value it returned. -/
structure Execution where
  events : List Event
  exit : Int
  deriving DecidableEq, Repr

/-- Put the events `es` in front of the execution `x`. -/
def Execution.after (es : List Event) (x : Execution) : Execution :=
  ⟨es ++ x.events, x.exit⟩

/-- The macro `CLI11_PARSE(Wtf, argc, argv)` (line 395) once the command line has
been bound to `Opts`: it runs the callback of the chosen subcommand. -/
def CLI11_PARSE (plat : Platform) (env : Env) (sub : Subcommand) (Opts : Options_t) :
    CallbackResult :=
  match sub with
  | Subcommand.master => MasterCallback env Opts
  | Subcommand.run => RunCallback plat env Opts
  | Subcommand.fuzz => FuzzCallback plat env Opts

/-- Lines 530-542: the dispatch to the fuzz or run subcommand. -/
def dispatch (env : Env) (sub : Subcommand) (Opts : Options_t) : Execution :=
  if sub = Subcommand.fuzz then ⟨[Event.FuzzSubcommand Opts], env.FuzzResult⟩
  else if sub = Subcommand.run then ⟨[Event.RunSubcommand Opts], env.RunResult⟩
  else ⟨[], EXIT_FAILURE⟩

/-- The line printed when `g_Backend->Initialize` fails (line 491). -/
def initFailedText : String := "Backend failed initialization.\n"

/-- The line printed when `SanitizeCpuState` fails (line 500). -/
def sanitizeFailedText : String := "SanitizeCpuState failed, no take off today.\n"

/-- Lines 521-542: `Restore`, then the dispatch. -/
def restoreAndDispatch (env : Env) (sub : Subcommand) (Opts : Options_t) : Execution :=
  if env.RestoreOk = false then
    ⟨[Event.Restore false, Event.print "Backend failed to restore.\n"], EXIT_FAILURE⟩
  else Execution.after [Event.Restore true] (dispatch env sub Opts)

/-- Lines 509-513: single stepping is turned on for the run subcommand with the `Rip`
trace type; then the rest of the start-up. -/
def singleStep (env : Env) (sub : Subcommand) (Opts : Options_t) : Execution :=
  if sub = Subcommand.run ∧ Opts.Run.TraceType = TraceType_t.Rip then
    if env.SingleStepOk = false then ⟨[Event.EnableSingleStep false], EXIT_FAILURE⟩
    else Execution.after [Event.EnableSingleStep true] (restoreAndDispatch env sub Opts)
  else restoreAndDispatch env sub Opts

/-- Lines 477-502: the limit, `Initialize` and `SanitizeCpuState`; then the rest of
the start-up. -/
def startBackend (env : Env) (sub : Subcommand) (Opts : Options_t) : Execution :=
  Execution.after (if Opts.Limit ≠ 0 then [Event.SetLimit Opts.Limit] else []) <|
  if env.InitializeOk = false then
    ⟨[Event.Initialize false, Event.print initFailedText], EXIT_FAILURE⟩
  else Execution.after [Event.Initialize true] <|
  if env.SanitizeOk = false then
    ⟨[Event.SanitizeCpuState false, Event.print sanitizeFailedText], EXIT_FAILURE⟩
  else Execution.after [Event.SanitizeCpuState true] (singleStep env sub Opts)

/-- Lines 401-471: the target lookup, the master shortcut, the CPU state, the backend
switch and the debugger, then the backend start-up. -/
def afterParse (plat : Platform) (env : Env) (sub : Subcommand) (Opts : Options_t) :
    Execution :=
  if env.TargetsGet Opts.TargetName = false then
    ⟨[Event.TargetsGet Opts.TargetName false, Event.DisplayRegisteredTargets], EXIT_FAILURE⟩
  else Execution.after [Event.TargetsGet Opts.TargetName true] <|
  if sub = Subcommand.master then ⟨[Event.MasterSubcommand Opts], env.MasterResult⟩
  else if env.LoadCpuStateOk = false then
    ⟨[Event.LoadCpuStateFromJSON false,
        Event.print "LoadCpuStateFromJSON failed, no take off today.\n"], EXIT_FAILURE⟩
  else Execution.after [Event.LoadCpuStateFromJSON true] <|
  match constructBackend plat Opts.Backend with
  | none => ⟨[], EXIT_FAILURE⟩
  | some b =>
    Execution.after [Event.newBackend b] <|
    Execution.after
      (if plat = Platform.Windows ∧ Opts.TargetName.startsWith "linux_" = true then
        [Event.print
          "Target name starts with 'linux_' so turning off the Windows debugger..\n"]
      else []) <|
    if env.DbgInitOk = false then ⟨[Event.DbgInit false], EXIT_FAILURE⟩
    else Execution.after [Event.DbgInit true] (startBackend env sub Opts)

/-- The function `main`, from the options as the command line bound them
(`Opts`) to the execution it performs. -/
def main (plat : Platform) (env : Env) (sub : Subcommand) (Opts : Options_t) : Execution :=
  let r := CLI11_PARSE plat env sub Opts
  match r.result with
  | Except.error e => ⟨r.printed.map Event.print ++ [Event.parseError e.what], e.exit_code⟩
  | Except.ok Opts => Execution.after (r.printed.map Event.print) (afterParse plat env sub Opts)

/-- The options after the path derivation that opens the callback of the subcommand
(lines 39-58, 118-137, 288-314), before any check. -/
def derivedPaths (env : Env) (sub : Subcommand) (Opts : Options_t) : Options_t :=
  match sub with
  | Subcommand.master => masterPaths env Opts
  | Subcommand.run => (runPaths env Opts).2
  | Subcommand.fuzz => fuzzPaths env Opts

/-! ## Sample inputs -/

/-- A host where every path exists, the current directory is `/work`, every target is
registered and every external call succeeds. -/
def okEnv : Env where
  pathExists := fun _ => true
  is_directory := fun _ => true
  current_path := "/work"
  join := fun p c => p ++ "/" ++ c
  parent_path := fun _ => "."
  drawHigh := 7
  drawLow := 9
  TargetsGet := fun _ => true
  MasterResult := 0
  LoadCpuStateOk := true
  DbgInitOk := true
  InitializeOk := true
  SanitizeOk := true
  SingleStepOk := true
  RestoreOk := true
  FuzzResult := 0
  RunResult := 0

/-- A command line that names a target and a state directory and nothing else: the
emulator backend, no edges, no limit, no trace option, no seed. -/
def plainOpts : Options_t where
  TargetName := "hevd"
  StatePath := "state"
  DumpPath := ""
  CpuStatePath := ""
  SymbolFilePath := ""
  GuestFilesPath := ""
  CoveragePath := ""
  Backend := BackendType_t.Bochscpu
  Edges := false
  Limit := 0
  Run := ⟨"", TraceType_t.NoTrace⟩
  Fuzz := ⟨"", 0⟩
  Master := ⟨"", "", "", "", 0⟩

/-- A run command line with `--trace-path /traces` and no `--trace-type`. -/
def tracePathOpts : Options_t :=
  { plainOpts with Run := ⟨"/traces", TraceType_t.NoTrace⟩ }

/-- A run command line with `--trace-type tenet` and no `--trace-path`. -/
def traceTypeOpts : Options_t :=
  { plainOpts with Run := ⟨"", TraceType_t.Tenet⟩ }

/-- The host `okEnv` with an empty state folder: `fs::exists` holds of the folder
`state` and of nothing else. -/
def noFilesEnv : Env := { okEnv with pathExists := fun p => decide (p = "state") }

/-- The host `okEnv` with a backend whose `Initialize` fails. -/
def initFailsEnv : Env := { okEnv with InitializeOk := false }

/-- The host `okEnv` with a CPU state that `SanitizeCpuState` rejects. -/
def sanitizeFailsEnv : Env := { okEnv with SanitizeOk := false }

/-- The host `okEnv` with a backend whose `EnableSingleStep` fails. -/
def stepFailsEnv : Env := { okEnv with SingleStepOk := false }

/-- The host `okEnv` where no target is registered under the given name. -/
def noTargetEnv : Env := { okEnv with TargetsGet := fun _ => false }

/-- A run command line with `--trace-type rip` and no `--trace-path`. -/
def ripOpts : Options_t :=
  { plainOpts with Run := ⟨"", TraceType_t.Rip⟩ }

/-- A command line with `--backend whv --edges`. -/
def whvEdgeOpts : Options_t :=
  { plainOpts with Backend := BackendType_t.Whv, Edges := true }

/-- A command line with `--backend whv`. -/
def whvOpts : Options_t :=
  { plainOpts with Backend := BackendType_t.Whv }

/-- The host `okEnv` where `state/mem.dmp` exists and `state/regs.json` does not. -/
def noRegsEnv : Env := { okEnv with pathExists := fun p => decide (p ≠ "state/regs.json") }

/-- A command line with `--backend kvm`. -/
def kvmOpts : Options_t :=
  { plainOpts with Backend := BackendType_t.Kvm }

/-- A command line with `--limit 5`. -/
def limitOpts : Options_t :=
  { plainOpts with Limit := 5 }

/-! ## What the callbacks keep and what they accept -/

theorem runPaths_keeps (env : Env) (Opts : Options_t) :
    (runPaths env Opts).2.Run = Opts.Run ∧ (runPaths env Opts).2.Backend = Opts.Backend ∧
      (runPaths env Opts).2.Edges = Opts.Edges ∧ (runPaths env Opts).2.Limit = Opts.Limit ∧
      (runPaths env Opts).2.TargetName = Opts.TargetName :=
  ⟨rfl, rfl, rfl, rfl, rfl⟩

theorem defaultTraceType_keeps (Opts : Options_t) :
    (defaultTraceType Opts).Backend = Opts.Backend ∧ (defaultTraceType Opts).Edges = Opts.Edges ∧
      (defaultTraceType Opts).Limit = Opts.Limit ∧
      (defaultTraceType Opts).TargetName = Opts.TargetName ∧
      (defaultTraceType Opts).DumpPath = Opts.DumpPath ∧
      (defaultTraceType Opts).CpuStatePath = Opts.CpuStatePath ∧
      (defaultTraceType Opts).Run.BaseTracePath = Opts.Run.BaseTracePath := by
  unfold defaultTraceType
  split
  · cases Opts.Backend <;> exact ⟨rfl, rfl, rfl, rfl, rfl, rfl, rfl⟩
  · exact ⟨rfl, rfl, rfl, rfl, rfl, rfl, rfl⟩

theorem defaultTracePath_keeps (env : Env) (Opts : Options_t) :
    (defaultTracePath env Opts).Backend = Opts.Backend ∧
      (defaultTracePath env Opts).Edges = Opts.Edges ∧
      (defaultTracePath env Opts).Limit = Opts.Limit ∧
      (defaultTracePath env Opts).TargetName = Opts.TargetName ∧
      (defaultTracePath env Opts).DumpPath = Opts.DumpPath ∧
      (defaultTracePath env Opts).CpuStatePath = Opts.CpuStatePath ∧
      (defaultTracePath env Opts).Run.TraceType = Opts.Run.TraceType := by
  unfold defaultTracePath
  split <;> exact ⟨rfl, rfl, rfl, rfl, rfl, rfl, rfl⟩

theorem normaliseRun_keeps (env : Env) (Opts : Options_t) :
    (normaliseRun env Opts).Backend = Opts.Backend ∧ (normaliseRun env Opts).Edges = Opts.Edges ∧
      (normaliseRun env Opts).Limit = Opts.Limit ∧
      (normaliseRun env Opts).TargetName = Opts.TargetName ∧
      (normaliseRun env Opts).DumpPath = (runPaths env Opts).2.DumpPath ∧
      (normaliseRun env Opts).CpuStatePath = (runPaths env Opts).2.CpuStatePath := by
  obtain ⟨a1, a2, a3, a4, a5, a6, -⟩ :=
    defaultTracePath_keeps env (defaultTraceType (runPaths env Opts).2)
  obtain ⟨b1, b2, b3, b4, b5, b6, -⟩ := defaultTraceType_keeps (runPaths env Opts).2
  obtain ⟨-, c1, c2, c3, c4⟩ := runPaths_keeps env Opts
  unfold normaliseRun
  exact ⟨a1.trans (b1.trans c1), a2.trans (b2.trans c2), a3.trans (b3.trans c3),
    a4.trans (b4.trans c4), a5.trans b5, a6.trans b6⟩

theorem fuzzPaths_keeps (env : Env) (Opts : Options_t) :
    (fuzzPaths env Opts).Backend = Opts.Backend ∧ (fuzzPaths env Opts).Edges = Opts.Edges ∧
      (fuzzPaths env Opts).Limit = Opts.Limit ∧
      (fuzzPaths env Opts).TargetName = Opts.TargetName ∧
      (fuzzPaths env Opts).Run = Opts.Run ∧ (fuzzPaths env Opts).Fuzz.Seed = Opts.Fuzz.Seed :=
  ⟨rfl, rfl, rfl, rfl, rfl, rfl⟩

theorem fuzzSeed_keeps (env : Env) (Opts : Options_t) :
    (fuzzSeed env Opts).Backend = Opts.Backend ∧ (fuzzSeed env Opts).Edges = Opts.Edges ∧
      (fuzzSeed env Opts).Limit = Opts.Limit ∧
      (fuzzSeed env Opts).TargetName = Opts.TargetName ∧ (fuzzSeed env Opts).Run = Opts.Run := by
  unfold fuzzSeed
  split <;> exact ⟨rfl, rfl, rfl, rfl, rfl⟩

theorem masterPaths_keeps (env : Env) (Opts : Options_t) :
    (masterPaths env Opts).Limit = Opts.Limit ∧
      (masterPaths env Opts).Master.Seed = Opts.Master.Seed :=
  ⟨rfl, rfl⟩

theorem masterSeed_keeps (env : Env) (Opts : Options_t) :
    (masterSeed env Opts).Limit = Opts.Limit := by
  unfold masterSeed
  split <;> rfl

theorem runChecks_ok (plat : Platform) (env : Env) (Opts O : Options_t)
    (h : runChecks plat env Opts = Except.ok O) :
    O = Opts ∧ ¬(Opts.Edges = true ∧ Opts.Backend ≠ BackendType_t.Bochscpu) := by
  unfold runChecks at h
  split_ifs at h with h1 h2 h3
  simp only [Except.ok.injEq] at h
  refine ⟨h.symm, ?_⟩
  simpa using h2

theorem fuzzChecks_ok (plat : Platform) (env : Env) (Opts O : Options_t)
    (h : fuzzChecks plat env Opts = Except.ok O) :
    O = fuzzSeed env Opts ∧ ¬(Opts.Edges = true ∧ Opts.Backend ≠ BackendType_t.Bochscpu) := by
  unfold fuzzChecks at h
  simp only [] at h
  split_ifs at h with h1 h2 h3
  simp only [Except.ok.injEq] at h
  refine ⟨h.symm, ?_⟩
  simpa using h2

theorem masterChecks_ok (env : Env) (Opts O : Options_t)
    (h : masterChecks env Opts = Except.ok O) : O = masterSeed env Opts := by
  unfold masterChecks at h
  split_ifs at h with h1
  simp only [Except.ok.injEq] at h
  exact h.symm



/-! ## Shape of an execution -/

theorem CLI11_PARSE_printed (plat : Platform) (env : Env) (sub : Subcommand) (Opts : Options_t) :
    (CLI11_PARSE plat env sub Opts).printed = [] ∨
      (CLI11_PARSE plat env sub Opts).printed = [foundStateText] := by
  cases sub
  · exact Or.inl rfl
  · simp only [CLI11_PARSE, RunCallback, runPaths, foundStateText]
    split_ifs
    · exact Or.inr rfl
    · exact Or.inl rfl
  · exact Or.inl rfl

theorem CLI11_PARSE_error (plat : Platform) (env : Env) (sub : Subcommand) (Opts : Options_t)
    (e : ParseError) (h : (CLI11_PARSE plat env sub Opts).result = Except.error e) :
    e.exit_code = EXIT_FAILURE := by
  cases sub
  · simp only [CLI11_PARSE, MasterCallback, masterChecks] at h
    split_ifs at h
    cases h; rfl
  · simp only [CLI11_PARSE, RunCallback, runChecks] at h
    split_ifs at h <;> (cases h; rfl)
  · simp only [CLI11_PARSE, FuzzCallback, fuzzChecks] at h
    split_ifs at h <;> (cases h; rfl)

/-- Every execution of `main` either stops in `CLI11_PARSE` with the callback's error,
or continues after the parse with the options the callback returned; in both cases
the callback printed nothing or the one line about the `state` folder. -/
theorem main_cases (plat : Platform) (env : Env) (sub : Subcommand) (Opts : Options_t) :
    ∃ pre : List Event, (pre = [] ∨ pre = [Event.print foundStateText]) ∧
      ((∃ text, (CLI11_PARSE plat env sub Opts).result = Except.error ⟨text, EXIT_FAILURE⟩ ∧
          main plat env sub Opts = ⟨pre ++ [Event.parseError text], EXIT_FAILURE⟩) ∨
        (∃ O, (CLI11_PARSE plat env sub Opts).result = Except.ok O ∧
          main plat env sub Opts = Execution.after pre (afterParse plat env sub O))) := by
  refine ⟨(CLI11_PARSE plat env sub Opts).printed.map Event.print, ?_, ?_⟩
  · rcases CLI11_PARSE_printed plat env sub Opts with h | h <;> simp [h]
  · cases hr : (CLI11_PARSE plat env sub Opts).result with
    | error e =>
      left
      have hc := CLI11_PARSE_error plat env sub Opts e hr
      refine ⟨e.what, ?_, ?_⟩
      · rw [← hc]
      · simp only [main, hr, hc]
    | ok O =>
      right
      exact ⟨O, rfl, by simp only [main, hr]⟩

/-- What the callback of each subcommand leaves untouched in the options it
accepts, and that it accepts no edge request for another backend than Bochscpu. -/
theorem CLI11_PARSE_ok (plat : Platform) (env : Env) (sub : Subcommand) (Opts O : Options_t)
    (h : (CLI11_PARSE plat env sub Opts).result = Except.ok O) :
    O.Limit = Opts.Limit ∧
      (sub ≠ Subcommand.master →
        O.Backend = Opts.Backend ∧ O.Edges = Opts.Edges ∧
          ¬(Opts.Edges = true ∧ Opts.Backend ≠ BackendType_t.Bochscpu)) ∧
      (sub = Subcommand.run → O = normaliseRun env Opts) := by
  cases sub
  · simp only [CLI11_PARSE, MasterCallback] at h
    have h1 := masterChecks_ok env _ O h
    subst h1
    exact ⟨(masterSeed_keeps env _).trans (masterPaths_keeps env Opts).1, by simp, by simp⟩
  · simp only [CLI11_PARSE, RunCallback] at h
    obtain ⟨h1, h2⟩ := runChecks_ok plat env _ O h
    change O = normaliseRun env Opts at h1
    change ¬((normaliseRun env Opts).Edges = true ∧ (normaliseRun env Opts).Backend ≠ _) at h2
    obtain ⟨k1, k2, k3, -⟩ := normaliseRun_keeps env Opts
    rw [k1, k2] at h2
    subst h1
    exact ⟨k3, fun _ => ⟨k1, k2, h2⟩, fun _ => rfl⟩
  · simp only [CLI11_PARSE, FuzzCallback] at h
    obtain ⟨h1, h2⟩ := fuzzChecks_ok plat env _ O h
    obtain ⟨a1, a2, a3, -⟩ := fuzzSeed_keeps env (fuzzPaths env Opts)
    obtain ⟨b1, b2, b3, -⟩ := fuzzPaths_keeps env Opts
    rw [b1, b2] at h2
    subst h1
    exact ⟨a3.trans b3, fun _ => ⟨a1.trans b1, a2.trans b2, h2⟩, by simp⟩

/-! ## The run normalisation -/

theorem normaliseRun_Run (env : Env) (Opts : Options_t) :
    (normaliseRun env Opts).Run =
      (defaultTracePath env (defaultTraceType Opts)).Run := by
  have h : (defaultTraceType (runPaths env Opts).2).Run = (defaultTraceType Opts).Run := by
    unfold defaultTraceType
    rw [(runPaths_keeps env Opts).1, (runPaths_keeps env Opts).2.1]
    split
    · cases Opts.Backend <;> rfl
    · rfl
  unfold normaliseRun defaultTracePath
  rw [h]
  split <;> first | rfl | exact h

/-- C6: in the run callback, a non-empty trace path with trace type NoTrace gives the
trace type Rip on the Bochscpu backend and UniqueRip on Whv and Kvm; a trace type other
than NoTrace is left as it is; and these normalised options are the ones the callback
returns when it accepts the command line. -/
theorem run_trace_type_default (plat : Platform) (env : Env) (Opts : Options_t) :
    (Opts.Run.BaseTracePath ≠ "" → Opts.Run.TraceType = TraceType_t.NoTrace →
        (Opts.Backend = BackendType_t.Bochscpu →
          (normaliseRun env Opts).Run.TraceType = TraceType_t.Rip) ∧
        (Opts.Backend = BackendType_t.Whv ∨ Opts.Backend = BackendType_t.Kvm →
          (normaliseRun env Opts).Run.TraceType = TraceType_t.UniqueRip)) ∧
      (Opts.Run.TraceType ≠ TraceType_t.NoTrace →
        (normaliseRun env Opts).Run.TraceType = Opts.Run.TraceType) ∧
      (∀ O, (RunCallback plat env Opts).result = Except.ok O → O = normaliseRun env Opts) := by
  have hk := (defaultTracePath_keeps env (defaultTraceType Opts)).2.2.2.2.2.2
  refine ⟨fun hp ht => ⟨fun hb => ?_, fun hb => ?_⟩, fun ht => ?_, fun O hO => ?_⟩
  · rw [normaliseRun_Run, hk]
    simp [defaultTraceType, hp, ht, hb]
  · rw [normaliseRun_Run, hk]
    rcases hb with hb | hb <;> simp [defaultTraceType, hp, ht, hb]
  · rw [normaliseRun_Run, hk]
    simp [defaultTraceType, ht]
  · exact (runChecks_ok plat env _ O hO).1

theorem run_trace_type_default_witness :
    (normaliseRun okEnv tracePathOpts).Run.TraceType = TraceType_t.Rip ∧
      (normaliseRun okEnv traceTypeOpts).Run.TraceType = TraceType_t.Tenet ∧
      (RunCallback Platform.Linux okEnv tracePathOpts).result =
        Except.ok (normaliseRun okEnv tracePathOpts) :=
  ⟨((run_trace_type_default Platform.Linux okEnv tracePathOpts).1 (by decide) (by decide)).1
      (by decide),
    (run_trace_type_default Platform.Linux okEnv traceTypeOpts).2.1 (by decide),
    rfl⟩

/-- C9: after both defaulting steps of the run callback, when the current working
directory is a non-empty path, the trace type is NoTrace exactly when the base trace
path is empty, whatever the backend; and when neither a trace path nor a trace type was
given, both stay unset. -/
theorem run_trace_type_iff_path (env : Env) (Opts : Options_t) (hcwd : env.current_path ≠ "") :
    ((normaliseRun env Opts).Run.TraceType = TraceType_t.NoTrace ↔
        (normaliseRun env Opts).Run.BaseTracePath = "") ∧
      (Opts.Run.BaseTracePath = "" → Opts.Run.TraceType = TraceType_t.NoTrace →
        (normaliseRun env Opts).Run.TraceType = TraceType_t.NoTrace ∧
          (normaliseRun env Opts).Run.BaseTracePath = "") := by
  rw [normaliseRun_Run]
  unfold defaultTracePath defaultTraceType
  by_cases hp : Opts.Run.BaseTracePath = "" <;>
    by_cases ht : Opts.Run.TraceType = TraceType_t.NoTrace <;>
    cases hb : Opts.Backend <;> simp [hp, ht, hcwd]

theorem run_trace_type_iff_path_witness :
    okEnv.current_path ≠ "" ∧
      (normaliseRun okEnv traceTypeOpts).Run = ⟨"/work", TraceType_t.Tenet⟩ ∧
      (((normaliseRun okEnv traceTypeOpts).Run.TraceType = TraceType_t.NoTrace ↔
          (normaliseRun okEnv traceTypeOpts).Run.BaseTracePath = "") ∧
        (traceTypeOpts.Run.BaseTracePath = "" →
          traceTypeOpts.Run.TraceType = TraceType_t.NoTrace →
          (normaliseRun okEnv traceTypeOpts).Run.TraceType = TraceType_t.NoTrace ∧
            (normaliseRun okEnv traceTypeOpts).Run.BaseTracePath = "")) :=
  ⟨by decide, by decide, run_trace_type_iff_path okEnv traceTypeOpts (by decide)⟩

/-! ## The seed -/

theorem randomSeed_eq (a b : Nat) (ha : a < 2 ^ 32) (hb : b < 2 ^ 32) :
    randomSeed a b = a * 2 ^ 32 + b := by
  unfold randomSeed
  rw [Nat.mod_eq_of_lt ha, Nat.mod_eq_of_lt hb, Nat.shiftLeft_eq]
  have h64 : a * 2 ^ 32 < 2 ^ 64 := by omega
  rw [Nat.mod_eq_of_lt h64, Nat.mul_comm a (2 ^ 32)]
  exact (Nat.mul_add_lt_is_or hb a).symm

/-- C10: the seed step of the master and of the fuzz callback, and with it each
callback that accepts the command line, leaves a non-zero seed as it is and replaces a
zero seed by the value built from the two draws of the random device; for 32-bit
draws `a` (left operand) and `b` (right operand) that value is `a * 2^32 + b`, it fits
in 64 bits, its upper 32 bits are `a` and its lower 32 bits are `b`; and every 64-bit
value `v`, zero included, is built from some pair of 32-bit draws. -/
theorem seed_default (plat : Platform) (env : Env) (Opts : Options_t) (a b v : Nat)
    (ha : a < 2 ^ 32) (hb : b < 2 ^ 32) (hv : v < 2 ^ 64) :
    ((masterSeed env Opts).Master.Seed =
        if Opts.Master.Seed = 0 then randomSeed env.drawHigh env.drawLow
        else Opts.Master.Seed) ∧
      ((fuzzSeed env Opts).Fuzz.Seed =
        if Opts.Fuzz.Seed = 0 then randomSeed env.drawHigh env.drawLow else Opts.Fuzz.Seed) ∧
      (∀ O, (MasterCallback env Opts).result = Except.ok O →
        O.Master.Seed =
          if Opts.Master.Seed = 0 then randomSeed env.drawHigh env.drawLow
          else Opts.Master.Seed) ∧
      (∀ O, (FuzzCallback plat env Opts).result = Except.ok O →
        O.Fuzz.Seed =
          if Opts.Fuzz.Seed = 0 then randomSeed env.drawHigh env.drawLow
          else Opts.Fuzz.Seed) ∧
      randomSeed (env.drawHigh % 2 ^ 32) (env.drawLow % 2 ^ 32) =
        randomSeed env.drawHigh env.drawLow ∧
      (randomSeed a b = a * 2 ^ 32 + b ∧ randomSeed a b < 2 ^ 64 ∧
        randomSeed a b >>> 32 = a ∧ randomSeed a b % 2 ^ 32 = b) ∧
      (∃ a' b', a' < 2 ^ 32 ∧ b' < 2 ^ 32 ∧ randomSeed a' b' = v) ∧
      (∃ a' b', a' < 2 ^ 32 ∧ b' < 2 ^ 32 ∧ randomSeed a' b' = 0) := by
  have h := randomSeed_eq a b ha hb
  refine ⟨?_, ?_, fun O hO => ?_, fun O hO => ?_, ?_, ⟨h, ?_, ?_, ?_⟩, ?_, ⟨0, 0, by decide⟩⟩
  · unfold masterSeed
    split <;> rfl
  · unfold fuzzSeed
    split <;> rfl
  · have h1 := masterChecks_ok env _ O hO
    subst h1
    unfold masterSeed
    rw [(masterPaths_keeps env Opts).2]
    split <;> rfl
  · have h1 := (fuzzChecks_ok plat env _ O hO).1
    subst h1
    unfold fuzzSeed
    rw [(fuzzPaths_keeps env Opts).2.2.2.2.2]
    split <;> rfl
  · unfold randomSeed
    rw [Nat.mod_mod, Nat.mod_mod]
  · omega
  · rw [h, Nat.shiftRight_eq_div_pow]; omega
  · omega
  · refine ⟨v / 2 ^ 32, v % 2 ^ 32, ?_, ?_, ?_⟩
    · omega
    · omega
    · rw [randomSeed_eq _ _ (by omega) (by omega)]; omega

theorem seed_default_witness :
    (FuzzCallback Platform.Windows okEnv plainOpts).result =
        Except.ok (fuzzSeed okEnv (fuzzPaths okEnv plainOpts)) ∧
      (fuzzSeed okEnv (fuzzPaths okEnv plainOpts)).Fuzz.Seed = 7 * 2 ^ 32 + 9 ∧
      randomSeed 7 9 = 7 * 2 ^ 32 + 9 ∧ randomSeed 7 9 >>> 32 = 7 ∧ randomSeed 7 9 % 2 ^ 32 = 9 :=
  have h :=
    seed_default Platform.Windows okEnv plainOpts 7 9 5 (by decide) (by decide) (by decide)
  ⟨rfl, (h.2.2.2.1 _ rfl).trans (by decide), h.2.2.2.2.2.1.1, h.2.2.2.2.2.1.2.2.1,
    h.2.2.2.2.2.1.2.2.2⟩

/-! ## The kind of each event -/

@[simp] theorem call_print (s : String) : (Event.print s).call = Call.print := rfl

@[simp] theorem call_parseError (s : String) : (Event.parseError s).call = Call.parseError := rfl

@[simp] theorem call_TargetsGet (s : String) (b : Bool) :
    (Event.TargetsGet s b).call = Call.TargetsGet := rfl

@[simp] theorem call_DisplayRegisteredTargets :
    Event.DisplayRegisteredTargets.call = Call.DisplayRegisteredTargets := rfl

@[simp] theorem call_MasterSubcommand (O : Options_t) :
    (Event.MasterSubcommand O).call = Call.MasterSubcommand := rfl

@[simp] theorem call_LoadCpuStateFromJSON (b : Bool) :
    (Event.LoadCpuStateFromJSON b).call = Call.LoadCpuStateFromJSON := rfl

@[simp] theorem call_newBackend (b : BackendType_t) :
    (Event.newBackend b).call = Call.newBackend := rfl

@[simp] theorem call_DbgInit (b : Bool) : (Event.DbgInit b).call = Call.DbgInit := rfl

@[simp] theorem call_SetLimit (n : Nat) : (Event.SetLimit n).call = Call.SetLimit := rfl

@[simp] theorem call_Initialize (b : Bool) : (Event.Initialize b).call = Call.Initialize := rfl

@[simp] theorem call_SanitizeCpuState (b : Bool) :
    (Event.SanitizeCpuState b).call = Call.SanitizeCpuState := rfl

@[simp] theorem call_EnableSingleStep (b : Bool) :
    (Event.EnableSingleStep b).call = Call.EnableSingleStep := rfl

@[simp] theorem call_Restore (b : Bool) : (Event.Restore b).call = Call.Restore := rfl

@[simp] theorem call_FuzzSubcommand (O : Options_t) :
    (Event.FuzzSubcommand O).call = Call.FuzzSubcommand := rfl

@[simp] theorem call_RunSubcommand (O : Options_t) :
    (Event.RunSubcommand O).call = Call.RunSubcommand := rfl

/-! ## Calls that the late stages of the start-up do not make -/

theorem restoreAndDispatch_calls (env : Env) (sub : Subcommand) (Opts : Options_t) :
    ∀ e ∈ (restoreAndDispatch env sub Opts).events,
      e.call = Call.print ∨ e.call = Call.Restore ∨ e.call = Call.FuzzSubcommand ∨
        e.call = Call.RunSubcommand := by
  unfold restoreAndDispatch dispatch Execution.after
  split_ifs <;> simp

theorem singleStep_calls (env : Env) (sub : Subcommand) (Opts : Options_t) :
    ∀ e ∈ (singleStep env sub Opts).events,
      e.call = Call.print ∨ e.call = Call.Restore ∨ e.call = Call.FuzzSubcommand ∨
        e.call = Call.RunSubcommand ∨ e.call = Call.EnableSingleStep := by
  have key : ∀ e ∈ (restoreAndDispatch env sub Opts).events,
      e.call = Call.print ∨ e.call = Call.Restore ∨ e.call = Call.FuzzSubcommand ∨
        e.call = Call.RunSubcommand ∨ e.call = Call.EnableSingleStep := fun e he => by
    rcases restoreAndDispatch_calls env sub Opts e he with h | h | h | h <;> simp [h]
  unfold singleStep Execution.after
  split_ifs
  · simp
  · simpa using key
  · exact key

/-! ## Single stepping -/

theorem singleStep_order (env : Env) (sub : Subcommand) (Opts : Options_t) :
    (∀ e ∈ (singleStep env sub Opts).events.dropWhile (fun e => e.call != Call.Restore),
        e.call ≠ Call.EnableSingleStep) ∧
      ((∃ ok, Event.EnableSingleStep ok ∈ (singleStep env sub Opts).events) ↔
        (sub = Subcommand.run ∧ Opts.Run.TraceType = TraceType_t.Rip)) ∧
      (Event.EnableSingleStep false ∈ (singleStep env sub Opts).events →
        (singleStep env sub Opts).exit = EXIT_FAILURE ∧
          ∀ e ∈ (singleStep env sub Opts).events, e.call ≠ Call.Restore) := by
  unfold singleStep restoreAndDispatch dispatch Execution.after
  split_ifs <;> simp_all

theorem startBackend_order (env : Env) (sub : Subcommand) (Opts : Options_t) :
    (∀ e ∈ (startBackend env sub Opts).events.dropWhile (fun e => e.call != Call.Restore),
        e.call ≠ Call.EnableSingleStep) ∧
      ((∃ ok, Event.EnableSingleStep ok ∈ (startBackend env sub Opts).events) ↔
        (sub = Subcommand.run ∧ Opts.Run.TraceType = TraceType_t.Rip ∧
          Event.SanitizeCpuState true ∈ (startBackend env sub Opts).events)) ∧
      (Event.EnableSingleStep false ∈ (startBackend env sub Opts).events →
        (startBackend env sub Opts).exit = EXIT_FAILURE ∧
          ∀ e ∈ (startBackend env sub Opts).events, e.call ≠ Call.Restore) := by
  have h := singleStep_order env sub Opts
  have h4 : Event.SanitizeCpuState true ∉ (singleStep env sub Opts).events := fun hm => by
    simpa using singleStep_calls env sub Opts _ hm
  unfold startBackend Execution.after
  split_ifs <;> simp_all

theorem afterParse_order (plat : Platform) (env : Env) (sub : Subcommand) (Opts : Options_t) :
    (∀ e ∈ (afterParse plat env sub Opts).events.dropWhile (fun e => e.call != Call.Restore),
        e.call ≠ Call.EnableSingleStep) ∧
      ((∃ ok, Event.EnableSingleStep ok ∈ (afterParse plat env sub Opts).events) ↔
        (sub = Subcommand.run ∧ Opts.Run.TraceType = TraceType_t.Rip ∧
          Event.SanitizeCpuState true ∈ (afterParse plat env sub Opts).events)) ∧
      (Event.EnableSingleStep false ∈ (afterParse plat env sub Opts).events →
        (afterParse plat env sub Opts).exit = EXIT_FAILURE ∧
          ∀ e ∈ (afterParse plat env sub Opts).events, e.call ≠ Call.Restore) := by
  have h := startBackend_order env sub Opts
  unfold afterParse Execution.after
  cases constructBackend plat Opts.Backend <;> simp only [] <;> split_ifs <;> simp_all

/-- C3 (amended): in every execution of `main`, no call to `EnableSingleStep` comes at
or after the first call to `Restore`; `EnableSingleStep` is called exactly when the
subcommand is run, the normalised trace type is Rip and the start-up got as far as a
successful `SanitizeCpuState`; and if it fails `main` returns EXIT_FAILURE and never
calls `Restore`. -/
theorem single_step_before_restore (plat : Platform) (env : Env) (sub : Subcommand)
    (Opts : Options_t) :
    (∀ e ∈ (main plat env sub Opts).events.dropWhile (fun e => e.call != Call.Restore),
        e.call ≠ Call.EnableSingleStep) ∧
      ((∃ ok, Event.EnableSingleStep ok ∈ (main plat env sub Opts).events) ↔
        (sub = Subcommand.run ∧ (normaliseRun env Opts).Run.TraceType = TraceType_t.Rip ∧
          Event.SanitizeCpuState true ∈ (main plat env sub Opts).events)) ∧
      (Event.EnableSingleStep false ∈ (main plat env sub Opts).events →
        (main plat env sub Opts).exit = EXIT_FAILURE ∧
          ∀ e ∈ (main plat env sub Opts).events, e.call ≠ Call.Restore) := by
  obtain ⟨pre, hpre, ⟨text, -, hm⟩ | ⟨O, hO, hm⟩⟩ := main_cases plat env sub Opts
  · rw [hm]
    rcases hpre with rfl | rfl <;> simp
  · have h := afterParse_order plat env sub O
    have hn := (CLI11_PARSE_ok plat env sub Opts O hO).2.2
    rw [hm]
    unfold Execution.after
    by_cases hs : sub = Subcommand.run
    · rw [← hn hs]
      rcases hpre with rfl | rfl <;> simp_all
    · rcases hpre with rfl | rfl <;> simp_all

theorem single_step_before_restore_witness :
    Event.EnableSingleStep false ∈
        (main Platform.Linux stepFailsEnv Subcommand.run ripOpts).events ∧
      (main Platform.Linux stepFailsEnv Subcommand.run ripOpts).exit = EXIT_FAILURE ∧
      ∀ e ∈ (main Platform.Linux stepFailsEnv Subcommand.run ripOpts).events,
        e.call ≠ Call.Restore :=
  ⟨by decide,
    (single_step_before_restore Platform.Linux stepFailsEnv Subcommand.run ripOpts).2.2
      (by decide)⟩

/-- C3, as stated, fails: with the run subcommand and `--trace-type rip` the callback
accepts the command line with the normalised trace type Rip, but when `Initialize` fails
`main` stops before the single-step step and `EnableSingleStep` is never called. -/
theorem single_step_not_exactly_run_rip :
    (CLI11_PARSE Platform.Linux initFailsEnv Subcommand.run ripOpts).result =
        Except.ok (normaliseRun initFailsEnv ripOpts) ∧
      (normaliseRun initFailsEnv ripOpts).Run.TraceType = TraceType_t.Rip ∧
      (main Platform.Linux initFailsEnv Subcommand.run ripOpts).events =
        [Event.TargetsGet "hevd" true, Event.LoadCpuStateFromJSON true,
          Event.newBackend BackendType_t.Bochscpu, Event.DbgInit true, Event.Initialize false,
          Event.print initFailedText] ∧
      ¬ ∃ ok, Event.EnableSingleStep ok ∈
        (main Platform.Linux initFailsEnv Subcommand.run ripOpts).events :=
  ⟨rfl, by decide, by decide, by decide⟩

/-! ## Sanitizing the CPU state -/

theorem startBackend_sanitize (env : Env) (sub : Subcommand) (Opts : Options_t) :
    (startBackend env sub Opts).events.countP (fun e => e.call == Call.SanitizeCpuState) ≤ 1 ∧
      (∀ ok, Event.SanitizeCpuState ok ∈ (startBackend env sub Opts).events →
        Event.Initialize true ∈
          (startBackend env sub Opts).events.takeWhile
            (fun e => e.call != Call.SanitizeCpuState)) ∧
      (∀ e ∈ (startBackend env sub Opts).events.dropWhile (fun e => e.call != Call.Restore),
        e.call ≠ Call.SanitizeCpuState) ∧
      ((∃ e ∈ (startBackend env sub Opts).events, e.isWork = true) →
        Event.Initialize true ∈
            (startBackend env sub Opts).events.takeWhile
              (fun e => e.call != Call.SanitizeCpuState) ∧
          Event.SanitizeCpuState true ∈
            (startBackend env sub Opts).events.takeWhile (fun e => !e.isWork)) := by
  have h : ∀ e ∈ (singleStep env sub Opts).events, e.call ≠ Call.SanitizeCpuState :=
    fun e he => by rcases singleStep_calls env sub Opts e he with h | h | h | h | h <;> simp [h]
  have h0 : (singleStep env sub Opts).events.countP
      (fun e => e.call == Call.SanitizeCpuState) = 0 :=
    List.countP_eq_zero.mpr fun e he => by simpa using h e he
  have h1 : ∀ e ∈ (singleStep env sub Opts).events.dropWhile (fun e => e.call != Call.Restore),
      e.call ≠ Call.SanitizeCpuState := fun e he => h e (List.dropWhile_subset _ he)
  unfold startBackend Execution.after
  split_ifs <;> simp_all [Event.isWork]

theorem afterParse_sanitize (plat : Platform) (env : Env) (sub : Subcommand)
    (Opts : Options_t) :
    (afterParse plat env sub Opts).events.countP (fun e => e.call == Call.SanitizeCpuState)
        ≤ 1 ∧
      (∀ ok, Event.SanitizeCpuState ok ∈ (afterParse plat env sub Opts).events →
        Event.Initialize true ∈
            (afterParse plat env sub Opts).events.takeWhile
              (fun e => e.call != Call.SanitizeCpuState) ∧
          Event.LoadCpuStateFromJSON true ∈
            (afterParse plat env sub Opts).events.takeWhile
              (fun e => e.call != Call.SanitizeCpuState)) ∧
      (∀ e ∈ (afterParse plat env sub Opts).events.dropWhile (fun e => e.call != Call.Restore),
        e.call ≠ Call.SanitizeCpuState) ∧
      ((∃ e ∈ (afterParse plat env sub Opts).events, e.isWork = true) →
        Event.Initialize true ∈
            (afterParse plat env sub Opts).events.takeWhile
              (fun e => e.call != Call.SanitizeCpuState) ∧
          Event.SanitizeCpuState true ∈
            (afterParse plat env sub Opts).events.takeWhile (fun e => !e.isWork)) := by
  obtain ⟨h1, h2, h3, h4⟩ := startBackend_sanitize env sub Opts
  unfold afterParse Execution.after
  cases constructBackend plat Opts.Backend <;> simp only [] <;> split_ifs <;>
    simp_all [Event.isWork] <;> assumption

/-- C4: in every execution of `main`, `SanitizeCpuState` is called at most once; when
it is called, a successful `LoadCpuStateFromJSON` and a successful `Initialize` come
before it; it is never called at or after the first `Restore`; and every execution that
reaches `Restore`, `FuzzSubcommand` or `RunSubcommand` has a successful `Initialize`
before its call to `SanitizeCpuState` and that call, successful, before the first of
`Restore`, `FuzzSubcommand`, `RunSubcommand`. -/
theorem sanitize_once_before_restore (plat : Platform) (env : Env) (sub : Subcommand)
    (Opts : Options_t) :
    (main plat env sub Opts).events.countP (fun e => e.call == Call.SanitizeCpuState) ≤ 1 ∧
      (∀ ok, Event.SanitizeCpuState ok ∈ (main plat env sub Opts).events →
        Event.Initialize true ∈
            (main plat env sub Opts).events.takeWhile
              (fun e => e.call != Call.SanitizeCpuState) ∧
          Event.LoadCpuStateFromJSON true ∈
            (main plat env sub Opts).events.takeWhile
              (fun e => e.call != Call.SanitizeCpuState)) ∧
      (∀ e ∈ (main plat env sub Opts).events.dropWhile (fun e => e.call != Call.Restore),
        e.call ≠ Call.SanitizeCpuState) ∧
      ((∃ e ∈ (main plat env sub Opts).events, e.isWork = true) →
        Event.Initialize true ∈
            (main plat env sub Opts).events.takeWhile
              (fun e => e.call != Call.SanitizeCpuState) ∧
          Event.SanitizeCpuState true ∈
            (main plat env sub Opts).events.takeWhile (fun e => !e.isWork)) := by
  obtain ⟨pre, hpre, ⟨text, -, hm⟩ | ⟨O, -, hm⟩⟩ := main_cases plat env sub Opts
  · rw [hm]
    rcases hpre with rfl | rfl <;> simp [Event.isWork]
  · obtain ⟨h1, h2, h3, h4⟩ := afterParse_sanitize plat env sub O
    rw [hm]
    unfold Execution.after
    rcases hpre with rfl | rfl <;> simp_all [Event.isWork] <;> assumption

theorem sanitize_once_before_restore_witness :
    (∃ e ∈ (main Platform.Linux okEnv Subcommand.fuzz plainOpts).events, e.isWork = true) ∧
      Event.Initialize true ∈
        (main Platform.Linux okEnv Subcommand.fuzz plainOpts).events.takeWhile
          (fun e => e.call != Call.SanitizeCpuState) ∧
      Event.SanitizeCpuState true ∈
        (main Platform.Linux okEnv Subcommand.fuzz plainOpts).events.takeWhile
          (fun e => !e.isWork) :=
  ⟨⟨Event.Restore true, by decide, rfl⟩,
    (sanitize_once_before_restore Platform.Linux okEnv Subcommand.fuzz plainOpts).2.2.2
      ⟨Event.Restore true, by decide, rfl⟩⟩

/-! ## The execution limit -/

theorem startBackend_limit (env : Env) (sub : Subcommand) (Opts : Options_t) :
    ((∃ n, Event.SetLimit n ∈ (startBackend env sub Opts).events) ↔ Opts.Limit ≠ 0) ∧
      (∀ n, Event.SetLimit n ∈ (startBackend env sub Opts).events → n = Opts.Limit) ∧
      (startBackend env sub Opts).events.countP (fun e => e.call == Call.SetLimit) ≤ 1 ∧
      (∀ e ∈ (startBackend env sub Opts).events.dropWhile
          (fun e => e.call != Call.Initialize && !e.isWork), e.call ≠ Call.SetLimit) := by
  have h : ∀ e ∈ (singleStep env sub Opts).events, e.call ≠ Call.SetLimit :=
    fun e he => by rcases singleStep_calls env sub Opts e he with h | h | h | h | h <;> simp [h]
  have h0 : (singleStep env sub Opts).events.countP (fun e => e.call == Call.SetLimit) = 0 :=
    List.countP_eq_zero.mpr fun e he => by simpa using h e he
  have h1 : ∀ n, Event.SetLimit n ∉ (singleStep env sub Opts).events :=
    fun n hn => by simpa using h _ hn
  have h2 : (singleStep env sub Opts).events.countP (fun e => e.call == Call.SetLimit) ≤ 1 :=
    h0 ▸ Nat.zero_le 1
  unfold startBackend Execution.after
  split_ifs <;> simp_all [Event.isWork]

theorem afterParse_limit (plat : Platform) (env : Env) (sub : Subcommand) (Opts : Options_t) :
    ((∃ n, Event.SetLimit n ∈ (afterParse plat env sub Opts).events) ↔
        (Opts.Limit ≠ 0 ∧ Event.DbgInit true ∈ (afterParse plat env sub Opts).events)) ∧
      (∀ n, Event.SetLimit n ∈ (afterParse plat env sub Opts).events → n = Opts.Limit) ∧
      (afterParse plat env sub Opts).events.countP (fun e => e.call == Call.SetLimit) ≤ 1 ∧
      (∀ e ∈ (afterParse plat env sub Opts).events.dropWhile
          (fun e => e.call != Call.Initialize && !e.isWork), e.call ≠ Call.SetLimit) := by
  obtain ⟨h1, h2, h3, h4⟩ := startBackend_limit env sub Opts
  unfold afterParse Execution.after
  cases constructBackend plat Opts.Backend <;> simp only [] <;> split_ifs <;>
    simp_all [Event.isWork] <;> assumption

/-- C5 (amended): `main` calls the backend's `SetLimit` exactly when the configured
limit is non-zero and the start-up got as far as a successful debugger `Init`; the value
passed is the configured limit; `SetLimit` is called at most once, and never at or after
the first call to `Initialize`, `Restore`, `FuzzSubcommand` or `RunSubcommand`; when the
configured limit is 0, `SetLimit` is never called. -/
theorem set_limit_when_nonzero (plat : Platform) (env : Env) (sub : Subcommand)
    (Opts : Options_t) :
    ((∃ n, Event.SetLimit n ∈ (main plat env sub Opts).events) ↔
        (Opts.Limit ≠ 0 ∧ Event.DbgInit true ∈ (main plat env sub Opts).events)) ∧
      (∀ n, Event.SetLimit n ∈ (main plat env sub Opts).events → n = Opts.Limit) ∧
      (main plat env sub Opts).events.countP (fun e => e.call == Call.SetLimit) ≤ 1 ∧
      (∀ e ∈ (main plat env sub Opts).events.dropWhile
          (fun e => e.call != Call.Initialize && !e.isWork), e.call ≠ Call.SetLimit) ∧
      (Opts.Limit = 0 → ∀ e ∈ (main plat env sub Opts).events, e.call ≠ Call.SetLimit) := by
  have key : ((∃ n, Event.SetLimit n ∈ (main plat env sub Opts).events) ↔
        (Opts.Limit ≠ 0 ∧ Event.DbgInit true ∈ (main plat env sub Opts).events)) ∧
      (∀ n, Event.SetLimit n ∈ (main plat env sub Opts).events → n = Opts.Limit) ∧
      (main plat env sub Opts).events.countP (fun e => e.call == Call.SetLimit) ≤ 1 ∧
      (∀ e ∈ (main plat env sub Opts).events.dropWhile
          (fun e => e.call != Call.Initialize && !e.isWork), e.call ≠ Call.SetLimit) := by
    obtain ⟨pre, hpre, ⟨text, -, hm⟩ | ⟨O, hO, hm⟩⟩ := main_cases plat env sub Opts
    · rw [hm]
      rcases hpre with rfl | rfl <;> simp [Event.isWork]
    · obtain ⟨h1, h2, h3, h4⟩ := afterParse_limit plat env sub O
      rw [(CLI11_PARSE_ok plat env sub Opts O hO).1] at h1 h2
      rw [hm]
      unfold Execution.after
      rcases hpre with rfl | rfl <;> simp_all [Event.isWork] <;> assumption
  refine ⟨key.1, key.2.1, key.2.2.1, key.2.2.2, fun h0 e he hc => ?_⟩
  cases e <;> simp at hc
  exact (key.1.mp ⟨_, he⟩).1 h0

theorem set_limit_when_nonzero_witness :
    Event.SetLimit 5 ∈ (main Platform.Linux okEnv Subcommand.fuzz limitOpts).events ∧
      (plainOpts.Limit = 0 ∧
        ∀ e ∈ (main Platform.Linux okEnv Subcommand.fuzz plainOpts).events,
          e.call ≠ Call.SetLimit) :=
  ⟨by decide, rfl,
    (set_limit_when_nonzero Platform.Linux okEnv Subcommand.fuzz plainOpts).2.2.2.2 rfl⟩

/-- C5, as stated, fails: with `--limit 5` on a host where the target name is not
registered, `main` returns EXIT_FAILURE right after the target lookup and never calls
`SetLimit`, although the configured limit is non-zero. -/
theorem set_limit_not_exactly_nonzero :
    limitOpts.Limit ≠ 0 ∧
      (main Platform.Linux noTargetEnv Subcommand.fuzz limitOpts) =
        ⟨[Event.TargetsGet "hevd" false, Event.DisplayRegisteredTargets], EXIT_FAILURE⟩ ∧
      ∀ e ∈ (main Platform.Linux noTargetEnv Subcommand.fuzz limitOpts).events,
        e.call ≠ Call.SetLimit :=
  ⟨by decide, by decide, by decide⟩

/-! ## Failure messages -/

theorem parse_error_text (plat : Platform) (env : Env) (sub : Subcommand) (Opts : Options_t)
    (e : ParseError) (h : (CLI11_PARSE plat env sub Opts).result = Except.error e) :
    e.what ≠ initFailedText ∧ e.what ≠ sanitizeFailedText := by
  have key : ∀ t : String, t.data.head? = some 'E' →
      t ≠ initFailedText ∧ t ≠ sanitizeFailedText := by
    intro t ht
    constructor <;> intro h' <;> subst h' <;> revert ht <;> decide
  apply key
  cases sub
  · simp only [CLI11_PARSE, MasterCallback, masterChecks] at h
    split_ifs at h
    cases h
    simp [String.data_append]
  · simp only [CLI11_PARSE, RunCallback, runChecks] at h
    split_ifs at h <;> cases h <;>
      simp [String.data_append, edgeErrorText, runMissingText, fuzzMissingText]
  · simp only [CLI11_PARSE, FuzzCallback, fuzzChecks] at h
    split_ifs at h <;> cases h <;>
      simp [String.data_append, edgeErrorText, runMissingText, fuzzMissingText]

theorem runChecks_edge (plat : Platform) (env : Env) (O : Options_t) (hE : O.Edges = true)
    (hB : O.Backend ≠ BackendType_t.Bochscpu) (hp : stateFilesPresent env O = true) :
    runChecks plat env O = Except.error ⟨edgeErrorText, EXIT_FAILURE⟩ := by
  unfold stateFilesPresent at hp
  simp only [Bool.and_eq_true] at hp
  simp [runChecks, hE, hB, hp.1, hp.2]

theorem fuzzChecks_edge (plat : Platform) (env : Env) (O : Options_t) (hE : O.Edges = true)
    (hB : O.Backend ≠ BackendType_t.Bochscpu) (hp : stateFilesPresent env O = true) :
    fuzzChecks plat env O = Except.error ⟨edgeErrorText, EXIT_FAILURE⟩ := by
  unfold stateFilesPresent at hp
  simp only [Bool.and_eq_true] at hp
  simp [fuzzChecks, hE, hB, hp.1, hp.2]

theorem edge_request_error (plat : Platform) (env : Env) (sub : Subcommand) (Opts : Options_t)
    (hsub : sub ≠ Subcommand.master) (hE : Opts.Edges = true)
    (hB : Opts.Backend ≠ BackendType_t.Bochscpu) :
    ∃ pre text, (pre = [] ∨ pre = [Event.print foundStateText]) ∧
      (CLI11_PARSE plat env sub Opts).result = Except.error ⟨text, EXIT_FAILURE⟩ ∧
      main plat env sub Opts = ⟨pre ++ [Event.parseError text], EXIT_FAILURE⟩ ∧
      text ≠ initFailedText ∧ text ≠ sanitizeFailedText ∧
      (stateFilesPresent env (derivedPaths env sub Opts) = true → text = edgeErrorText) := by
  obtain ⟨pre, hpre, ⟨text, hr, hm⟩ | ⟨O, hO, -⟩⟩ := main_cases plat env sub Opts
  · refine ⟨pre, text, hpre, hr, hm, (parse_error_text plat env sub Opts _ hr).1,
      (parse_error_text plat env sub Opts _ hr).2, fun hp => ?_⟩
    cases sub
    · exact absurd rfl hsub
    · obtain ⟨k1, k2, -, -, k5, k6⟩ := normaliseRun_keeps env Opts
      have hp' : stateFilesPresent env (normaliseRun env Opts) = true := by
        unfold stateFilesPresent at hp ⊢
        rw [k5, k6]
        exact hp
      have h := runChecks_edge plat env (normaliseRun env Opts) (k2.trans hE) (k1 ▸ hB) hp'
      change runChecks plat env (normaliseRun env Opts) = _ at hr
      rw [h] at hr
      cases hr
      rfl
    · obtain ⟨k1, k2, -⟩ := fuzzPaths_keeps env Opts
      have h := fuzzChecks_edge plat env (fuzzPaths env Opts) (k2.trans hE) (k1 ▸ hB) hp
      change fuzzChecks plat env (fuzzPaths env Opts) = _ at hr
      rw [h] at hr
      cases hr
      rfl
  · exact absurd ⟨hE, hB⟩ ((CLI11_PARSE_ok plat env sub Opts O hO).2.1 hsub).2.2

theorem normaliseRun_StatePath (env : Env) (Opts : Options_t) :
    (normaliseRun env Opts).StatePath = (runPaths env Opts).2.StatePath := by
  have h1 : ∀ O : Options_t, (defaultTraceType O).StatePath = O.StatePath := by
    intro O
    unfold defaultTraceType
    split
    · cases O.Backend <;> rfl
    · rfl
  have h2 : ∀ O : Options_t, (defaultTracePath env O).StatePath = O.StatePath := by
    intro O
    unfold defaultTracePath
    split <;> rfl
  unfold normaliseRun
  rw [h2, h1]

theorem runChecks_missing (plat : Platform) (env : Env) (O : Options_t)
    (hp : stateFilesPresent env O = false) :
    runChecks plat env O = Except.error ⟨runMissingText O, EXIT_FAILURE⟩ := by
  unfold stateFilesPresent at hp
  unfold runChecks
  rw [if_pos]
  revert hp
  cases env.pathExists O.DumpPath <;> cases env.pathExists O.CpuStatePath <;> simp

theorem fuzzChecks_missing (plat : Platform) (env : Env) (O : Options_t)
    (hp : stateFilesPresent env O = false) :
    fuzzChecks plat env O = Except.error ⟨fuzzMissingText O, EXIT_FAILURE⟩ := by
  unfold stateFilesPresent at hp
  unfold fuzzChecks
  rw [if_pos]
  revert hp
  cases env.pathExists O.DumpPath <;> cases env.pathExists O.CpuStatePath <;> simp

theorem missing_state_error (plat : Platform) (env : Env) (sub : Subcommand)
    (Opts : Options_t) (text : String)
    (hr : (CLI11_PARSE plat env sub Opts).result = Except.error ⟨text, EXIT_FAILURE⟩)
    (hp : stateFilesPresent env (derivedPaths env sub Opts) = false) :
    (sub = Subcommand.run → text = runMissingText (derivedPaths env sub Opts)) ∧
      (sub = Subcommand.fuzz → text = fuzzMissingText (derivedPaths env sub Opts)) := by
  cases sub
  · exact ⟨fun h => Subcommand.noConfusion h, fun h => Subcommand.noConfusion h⟩
  · refine ⟨fun _ => ?_, fun h => Subcommand.noConfusion h⟩
    obtain ⟨-, -, -, -, k5, k6⟩ := normaliseRun_keeps env Opts
    have hp' : stateFilesPresent env (normaliseRun env Opts) = false := by
      unfold stateFilesPresent at hp ⊢
      rw [k5, k6]
      exact hp
    have h := runChecks_missing plat env (normaliseRun env Opts) hp'
    change runChecks plat env (normaliseRun env Opts) = _ at hr
    rw [h] at hr
    cases hr
    unfold runMissingText
    rw [normaliseRun_StatePath]
    rfl
  · refine ⟨fun h => Subcommand.noConfusion h, fun _ => ?_⟩
    have h := fuzzChecks_missing plat env (fuzzPaths env Opts) hp
    change fuzzChecks plat env (fuzzPaths env Opts) = _ at hr
    rw [h] at hr
    cases hr
    rfl

/-- C1 (amended): for the run and the fuzz subcommand, every option set with Edges true
and a backend other than Bochscpu is rejected by the callback with a parse error and
exit code EXIT_FAILURE, which is what `main` reports last and returns; when `mem.dmp`
and `regs.json` both exist in the state folder that error is the capability error "Edge
coverage is only available with the bxcpu backend.", and when one of them is missing it
is the missing-state-files error of the subcommand; and `main` never constructs a
backend nor calls `Initialize`, `Restore`, `FuzzSubcommand` or `RunSubcommand`. -/
theorem edge_request_rejected (plat : Platform) (env : Env) (sub : Subcommand)
    (Opts : Options_t) (hsub : sub ≠ Subcommand.master) (hE : Opts.Edges = true)
    (hB : Opts.Backend ≠ BackendType_t.Bochscpu) :
    (main plat env sub Opts).exit = EXIT_FAILURE ∧
      (∃ text, (CLI11_PARSE plat env sub Opts).result = Except.error ⟨text, EXIT_FAILURE⟩ ∧
        [Event.parseError text] <:+ (main plat env sub Opts).events ∧
        (stateFilesPresent env (derivedPaths env sub Opts) = true → text = edgeErrorText) ∧
        (stateFilesPresent env (derivedPaths env sub Opts) = false →
          (sub = Subcommand.run → text = runMissingText (derivedPaths env sub Opts)) ∧
            (sub = Subcommand.fuzz → text = fuzzMissingText (derivedPaths env sub Opts)))) ∧
      (∀ e ∈ (main plat env sub Opts).events,
        e.call ≠ Call.newBackend ∧ e.call ≠ Call.Initialize ∧ e.isWork = false) := by
  obtain ⟨pre, text, hpre, hr, hm, -, -, hp⟩ := edge_request_error plat env sub Opts hsub hE hB
  rw [hm]
  refine ⟨rfl, ⟨text, hr, List.suffix_append _ _, hp,
    missing_state_error plat env sub Opts text hr⟩, ?_⟩
  rcases hpre with rfl | rfl <;> simp [Event.isWork]

theorem edge_request_rejected_witness :
    main Platform.Windows okEnv Subcommand.fuzz whvEdgeOpts =
        ⟨[Event.parseError edgeErrorText], EXIT_FAILURE⟩ ∧
      (main Platform.Windows okEnv Subcommand.fuzz whvEdgeOpts).exit = EXIT_FAILURE ∧
      (∀ e ∈ (main Platform.Windows okEnv Subcommand.fuzz whvEdgeOpts).events,
        e.call ≠ Call.newBackend ∧ e.call ≠ Call.Initialize ∧ e.isWork = false) ∧
      stateFilesPresent noRegsEnv (derivedPaths noRegsEnv Subcommand.run whvEdgeOpts) = false ∧
      main Platform.Windows noRegsEnv Subcommand.run whvEdgeOpts =
        ⟨[Event.parseError
            (runMissingText (derivedPaths noRegsEnv Subcommand.run whvEdgeOpts))],
          EXIT_FAILURE⟩ ∧
      (main Platform.Windows noRegsEnv Subcommand.run whvEdgeOpts).exit = EXIT_FAILURE :=
  have h := edge_request_rejected Platform.Windows okEnv Subcommand.fuzz whvEdgeOpts
    (by decide) (by decide) (by decide)
  have k := edge_request_rejected Platform.Windows noRegsEnv Subcommand.run whvEdgeOpts
    (by decide) (by decide) (by decide)
  ⟨by decide, h.1, h.2.2, by decide, by decide, k.1⟩

/-- C1, as stated, fails: on a Windows host where the state folder holds no `mem.dmp`,
the run subcommand with `--backend whv --edges` is rejected with the missing-files
error, not with the capability error. -/
theorem edge_request_other_error :
    whvEdgeOpts.Edges = true ∧ whvEdgeOpts.Backend ≠ BackendType_t.Bochscpu ∧
      main Platform.Windows noFilesEnv Subcommand.run whvEdgeOpts =
        ⟨[Event.parseError "Expected to find state/mem.dmp, state/regs.json files in 'state'."],
          EXIT_FAILURE⟩ ∧
      "Expected to find state/mem.dmp, state/regs.json files in 'state'." ≠ edgeErrorText :=
  ⟨by decide, by decide, by decide, by decide⟩

/-! ## Failures of the start-up -/

theorem startBackend_failures (env : Env) (sub : Subcommand) (Opts : Options_t) :
    (Event.Initialize false ∈ (startBackend env sub Opts).events →
        (startBackend env sub Opts).exit = EXIT_FAILURE ∧
          [Event.Initialize false, Event.print initFailedText] <:+
            (startBackend env sub Opts).events ∧
          ∀ e ∈ (startBackend env sub Opts).events, e.isWork = false) ∧
      (Event.SanitizeCpuState false ∈ (startBackend env sub Opts).events →
        (startBackend env sub Opts).exit = EXIT_FAILURE ∧
          [Event.SanitizeCpuState false, Event.print sanitizeFailedText] <:+
            (startBackend env sub Opts).events ∧
          ∀ e ∈ (startBackend env sub Opts).events, e.isWork = false) := by
  have h1 : ∀ ok, Event.Initialize ok ∉ (singleStep env sub Opts).events := fun ok hm => by
    simpa using singleStep_calls env sub Opts _ hm
  have h2 : ∀ ok, Event.SanitizeCpuState ok ∉ (singleStep env sub Opts).events :=
    fun ok hm => by simpa using singleStep_calls env sub Opts _ hm
  unfold startBackend Execution.after
  split_ifs <;> simp_all [Event.isWork, List.suffix_cons_iff]

theorem afterParse_failures (plat : Platform) (env : Env) (sub : Subcommand)
    (Opts : Options_t) :
    (Event.Initialize false ∈ (afterParse plat env sub Opts).events →
        (afterParse plat env sub Opts).exit = EXIT_FAILURE ∧
          [Event.Initialize false, Event.print initFailedText] <:+
            (afterParse plat env sub Opts).events ∧
          ∀ e ∈ (afterParse plat env sub Opts).events, e.isWork = false) ∧
      (Event.SanitizeCpuState false ∈ (afterParse plat env sub Opts).events →
        (afterParse plat env sub Opts).exit = EXIT_FAILURE ∧
          [Event.SanitizeCpuState false, Event.print sanitizeFailedText] <:+
            (afterParse plat env sub Opts).events ∧
          ∀ e ∈ (afterParse plat env sub Opts).events, e.isWork = false) := by
  obtain ⟨h1, h2⟩ := startBackend_failures env sub Opts
  unfold afterParse Execution.after
  cases constructBackend plat Opts.Backend <;> simp only [] <;> split_ifs <;>
    simp_all [Event.isWork, List.suffix_cons_iff]

/-- C2: in every execution of `main`, a failed `Initialize`, a failed `SanitizeCpuState`
and an edge-coverage request for a backend other than Bochscpu (run and fuzz, the
subcommands with an `--edges` flag) each make `main` return EXIT_FAILURE with a message
as its last event and without any call to `Restore`, `FuzzSubcommand` or
`RunSubcommand`; the message is the initialization line in the first case, the
sanitization line in the second and a parse error different from both in the third (the
capability error when `mem.dmp` and `regs.json` exist); and the three texts are pairwise
distinct. -/
theorem startup_failures_reported (plat : Platform) (env : Env) (sub : Subcommand)
    (Opts : Options_t) :
    (Event.Initialize false ∈ (main plat env sub Opts).events →
        (main plat env sub Opts).exit = EXIT_FAILURE ∧
          [Event.Initialize false, Event.print initFailedText] <:+
            (main plat env sub Opts).events ∧
          ∀ e ∈ (main plat env sub Opts).events, e.isWork = false) ∧
      (Event.SanitizeCpuState false ∈ (main plat env sub Opts).events →
        (main plat env sub Opts).exit = EXIT_FAILURE ∧
          [Event.SanitizeCpuState false, Event.print sanitizeFailedText] <:+
            (main plat env sub Opts).events ∧
          ∀ e ∈ (main plat env sub Opts).events, e.isWork = false) ∧
      (sub ≠ Subcommand.master → Opts.Edges = true → Opts.Backend ≠ BackendType_t.Bochscpu →
        (main plat env sub Opts).exit = EXIT_FAILURE ∧
          (∃ text, [Event.parseError text] <:+ (main plat env sub Opts).events ∧
            text ≠ initFailedText ∧ text ≠ sanitizeFailedText ∧
            (stateFilesPresent env (derivedPaths env sub Opts) = true →
              text = edgeErrorText)) ∧
          ∀ e ∈ (main plat env sub Opts).events, e.isWork = false) ∧
      (initFailedText ≠ sanitizeFailedText ∧ edgeErrorText ≠ initFailedText ∧
        edgeErrorText ≠ sanitizeFailedText) := by
  have key :
      (Event.Initialize false ∈ (main plat env sub Opts).events →
        (main plat env sub Opts).exit = EXIT_FAILURE ∧
          [Event.Initialize false, Event.print initFailedText] <:+
            (main plat env sub Opts).events ∧
          ∀ e ∈ (main plat env sub Opts).events, e.isWork = false) ∧
      (Event.SanitizeCpuState false ∈ (main plat env sub Opts).events →
        (main plat env sub Opts).exit = EXIT_FAILURE ∧
          [Event.SanitizeCpuState false, Event.print sanitizeFailedText] <:+
            (main plat env sub Opts).events ∧
          ∀ e ∈ (main plat env sub Opts).events, e.isWork = false) := by
    obtain ⟨pre, hpre, ⟨text, -, hm⟩ | ⟨O, -, hm⟩⟩ := main_cases plat env sub Opts
    · rw [hm]
      rcases hpre with rfl | rfl <;> simp
    · obtain ⟨h1, h2⟩ := afterParse_failures plat env sub O
      rw [hm]
      unfold Execution.after
      rcases hpre with rfl | rfl <;> simp_all [Event.isWork, List.suffix_cons_iff]
  refine ⟨key.1, key.2, fun hsub hE hB => ?_, by decide, by decide, by decide⟩
  obtain ⟨pre, text, hpre, -, hm, n1, n2, hp⟩ :=
    edge_request_error plat env sub Opts hsub hE hB
  rw [hm]
  refine ⟨rfl, ⟨text, List.suffix_append _ _, n1, n2, hp⟩, ?_⟩
  rcases hpre with rfl | rfl <;> simp [Event.isWork]

theorem startup_failures_reported_witness :
    (Event.Initialize false ∈ (main Platform.Linux initFailsEnv Subcommand.fuzz plainOpts).events ∧
        (main Platform.Linux initFailsEnv Subcommand.fuzz plainOpts).exit = EXIT_FAILURE) ∧
      (Event.SanitizeCpuState false ∈
          (main Platform.Linux sanitizeFailsEnv Subcommand.run plainOpts).events ∧
        [Event.SanitizeCpuState false, Event.print sanitizeFailedText] <:+
          (main Platform.Linux sanitizeFailsEnv Subcommand.run plainOpts).events) ∧
      (main Platform.Windows okEnv Subcommand.run whvEdgeOpts).exit = EXIT_FAILURE :=
  ⟨⟨by decide,
      ((startup_failures_reported Platform.Linux initFailsEnv Subcommand.fuzz plainOpts).1
        (by decide)).1⟩,
    ⟨by decide,
      ((startup_failures_reported Platform.Linux sanitizeFailsEnv Subcommand.run plainOpts).2.1
        (by decide)).2.1⟩,
    ((startup_failures_reported Platform.Windows okEnv Subcommand.run whvEdgeOpts).2.2.1
      (by decide) (by decide) (by decide)).1⟩

/-! ## The backend table and the backend switch -/

theorem startBackend_calls (env : Env) (sub : Subcommand) (Opts : Options_t) :
    ∀ e ∈ (startBackend env sub Opts).events,
      e.call ≠ Call.newBackend ∧ e.call ≠ Call.LoadCpuStateFromJSON := by
  have h : ∀ e ∈ (singleStep env sub Opts).events,
      e.call ≠ Call.newBackend ∧ e.call ≠ Call.LoadCpuStateFromJSON := fun e he => by
    rcases singleStep_calls env sub Opts e he with h | h | h | h | h <;> simp [h]
  unfold startBackend Execution.after
  split_ifs <;> simp_all

theorem afterParse_backend (plat : Platform) (env : Env) (sub : Subcommand)
    (Opts : Options_t) :
    (∀ b, Event.newBackend b ∈ (afterParse plat env sub Opts).events →
        constructBackend plat Opts.Backend = some b) ∧
      (∀ b, constructBackend plat Opts.Backend = some b →
        Event.LoadCpuStateFromJSON true ∈ (afterParse plat env sub Opts).events →
        Event.newBackend b ∈ (afterParse plat env sub Opts).events) ∧
      (constructBackend plat Opts.Backend = none →
        (∀ e ∈ (afterParse plat env sub Opts).events,
          e.call ≠ Call.newBackend ∧ e.call ≠ Call.Initialize) ∧
        (sub ≠ Subcommand.master → (afterParse plat env sub Opts).exit = EXIT_FAILURE)) := by
  have h := startBackend_calls env sub Opts
  have h1 : ∀ b, Event.newBackend b ∉ (startBackend env sub Opts).events := fun b hb => by
    simpa using (h _ hb).1
  have h2 : ∀ b, Event.LoadCpuStateFromJSON b ∉ (startBackend env sub Opts).events :=
    fun b hb => by simpa using (h _ hb).2
  unfold afterParse Execution.after
  cases hc : constructBackend plat Opts.Backend <;> simp only [] <;> split_ifs <;> simp_all

theorem CLI11_PARSE_Backend (plat : Platform) (env : Env) (sub : Subcommand)
    (Opts O : Options_t) (h : (CLI11_PARSE plat env sub Opts).result = Except.ok O) :
    O.Backend = Opts.Backend := by
  cases sub
  · simp only [CLI11_PARSE, MasterCallback] at h
    have h1 := masterChecks_ok env _ O h
    subst h1
    unfold masterSeed
    split <;> rfl
  · exact ((CLI11_PARSE_ok plat env _ Opts O h).2.1 (by decide)).1
  · exact ((CLI11_PARSE_ok plat env _ Opts O h).2.1 (by decide)).1

theorem lookup_mem_values {α β : Type} [BEq α] (a : α) (l : List (α × β)) (b : β)
    (h : l.lookup a = some b) : b ∈ l.map Prod.snd := by
  induction l with
  | nil => simp [List.lookup] at h
  | cons x xs ih =>
    obtain ⟨k, v⟩ := x
    simp only [List.lookup] at h
    split at h
    · simp only [Option.some.injEq] at h
      simp [h]
    · simp [ih h]

theorem backendOption_iff (plat : Platform) (name : String) (b : BackendType_t) :
    backendOption plat name = some b ↔ (ignore_case name, b) ∈ BackendTypeMap plat := by
  unfold backendOption
  generalize ignore_case name = k
  by_cases h1 : k = "bochscpu"
  · subst h1
    cases plat <;> simp [BackendTypeMap, List.lookup] <;> exact eq_comm
  · by_cases h2 : k = "bxcpu"
    · subst h2
      cases plat <;> simp [BackendTypeMap, List.lookup] <;> exact eq_comm
    · have e1 : (k == "bochscpu") = false := beq_eq_false_iff_ne.mpr h1
      have e2 : (k == "bxcpu") = false := beq_eq_false_iff_ne.mpr h2
      cases plat
      · by_cases h3 : k = "whv"
        · subst h3
          simp [BackendTypeMap, List.lookup]
          exact eq_comm
        · have e3 := beq_eq_false_iff_ne.mpr h3
          simp [BackendTypeMap, List.lookup, h1, h2, h3, e1, e2, e3]
      · by_cases h3 : k = "kvm"
        · subst h3
          simp [BackendTypeMap, List.lookup]
          exact eq_comm
        · have e3 := beq_eq_false_iff_ne.mpr h3
          simp [BackendTypeMap, List.lookup, h1, h2, h3, e1, e2, e3]

theorem selectable_iff_constructed (plat : Platform) (b : BackendType_t) :
    b ∈ selectableBackends plat ↔ constructBackend plat b = some b := by
  cases plat <;> cases b <;> simp [selectableBackends, BackendTypeMap, constructBackend]

/-- C7: the `--backend` table holds "bochscpu" and "bxcpu" for Bochscpu on both
platforms, "whv" for Whv on Windows only, "kvm" for Kvm on Linux only, and nothing else;
`main` constructs the Whv backend only on Windows and the Kvm backend only on Linux, the
backend it constructs is the selected one, the Bochscpu backend is constructed on either
platform once the CPU state is loaded; for a backend that the platform lacks (Whv on
Linux, Kvm on Windows) `main` constructs no backend, never calls `Initialize` and, for
the run and fuzz subcommands (the ones with a `--backend` option), returns
EXIT_FAILURE; the `--backend` option binds a backend exactly when the name, without
case, is in the table of the platform, and the backends it can bind there are exactly
the ones the switch of `main` constructs there; and once the CPU state is loaded `main`
does construct the selected backend whenever the platform has it: Whv on Windows, Kvm on
Linux, and any backend the option can bind. -/
theorem backend_table_and_switch (plat : Platform) (env : Env) (sub : Subcommand)
    (Opts : Options_t) :
    (∀ name b, (name, b) ∈ BackendTypeMap plat ↔
        (name = "bochscpu" ∧ b = BackendType_t.Bochscpu) ∨
          (name = "bxcpu" ∧ b = BackendType_t.Bochscpu) ∨
          (plat = Platform.Windows ∧ name = "whv" ∧ b = BackendType_t.Whv) ∨
          (plat = Platform.Linux ∧ name = "kvm" ∧ b = BackendType_t.Kvm)) ∧
      (Event.newBackend BackendType_t.Whv ∈ (main plat env sub Opts).events →
        plat = Platform.Windows) ∧
      (Event.newBackend BackendType_t.Kvm ∈ (main plat env sub Opts).events →
        plat = Platform.Linux) ∧
      (∀ b, Event.newBackend b ∈ (main plat env sub Opts).events → b = Opts.Backend) ∧
      (Opts.Backend = BackendType_t.Bochscpu →
        Event.LoadCpuStateFromJSON true ∈ (main plat env sub Opts).events →
        Event.newBackend BackendType_t.Bochscpu ∈ (main plat env sub Opts).events) ∧
      ((plat = Platform.Linux ∧ Opts.Backend = BackendType_t.Whv) ∨
          (plat = Platform.Windows ∧ Opts.Backend = BackendType_t.Kvm) →
        (∀ e ∈ (main plat env sub Opts).events,
          e.call ≠ Call.newBackend ∧ e.call ≠ Call.Initialize) ∧
        (sub ≠ Subcommand.master → (main plat env sub Opts).exit = EXIT_FAILURE)) ∧
      (∀ name b, backendOption plat name = some b → b ∈ selectableBackends plat) ∧
      (∀ b, b ∈ selectableBackends plat ↔ constructBackend plat b = some b) ∧
      (plat = Platform.Windows → Opts.Backend = BackendType_t.Whv →
        Event.LoadCpuStateFromJSON true ∈ (main plat env sub Opts).events →
        Event.newBackend BackendType_t.Whv ∈ (main plat env sub Opts).events) ∧
      (plat = Platform.Linux → Opts.Backend = BackendType_t.Kvm →
        Event.LoadCpuStateFromJSON true ∈ (main plat env sub Opts).events →
        Event.newBackend BackendType_t.Kvm ∈ (main plat env sub Opts).events) ∧
      (Opts.Backend ∈ selectableBackends plat →
        Event.LoadCpuStateFromJSON true ∈ (main plat env sub Opts).events →
        Event.newBackend Opts.Backend ∈ (main plat env sub Opts).events) ∧
      (∀ name b, backendOption plat name = some b ↔
        (ignore_case name, b) ∈ BackendTypeMap plat) := by
  have key : (∀ b, Event.newBackend b ∈ (main plat env sub Opts).events →
        constructBackend plat Opts.Backend = some b) ∧
      (∀ b, constructBackend plat Opts.Backend = some b →
        Event.LoadCpuStateFromJSON true ∈ (main plat env sub Opts).events →
        Event.newBackend b ∈ (main plat env sub Opts).events) ∧
      (constructBackend plat Opts.Backend = none →
        (∀ e ∈ (main plat env sub Opts).events,
          e.call ≠ Call.newBackend ∧ e.call ≠ Call.Initialize) ∧
        (sub ≠ Subcommand.master → (main plat env sub Opts).exit = EXIT_FAILURE)) := by
    obtain ⟨pre, hpre, ⟨text, -, hm⟩ | ⟨O, hO, hm⟩⟩ := main_cases plat env sub Opts
    · rw [hm]
      rcases hpre with rfl | rfl <;> simp
    · obtain ⟨h1, h2, h3⟩ := afterParse_backend plat env sub O
      rw [CLI11_PARSE_Backend plat env sub Opts O hO] at h1 h2 h3
      rw [hm]
      unfold Execution.after
      rcases hpre with rfl | rfl <;> simp_all <;> assumption
  obtain ⟨k1, k2, k3⟩ := key
  refine ⟨fun name b => ?_, fun h => ?_, fun h => ?_, fun b h => ?_, fun hb hl => ?_,
    fun h => ?_, fun name b h => ?_, selectable_iff_constructed plat, fun hp hb hl => ?_,
    fun hp hb hl => ?_, fun hs hl => ?_, backendOption_iff plat⟩
  · cases plat <;> simp [BackendTypeMap]
  · have := k1 _ h
    revert this
    cases plat <;> cases Opts.Backend <;> simp [constructBackend]
  · have := k1 _ h
    revert this
    cases plat <;> cases Opts.Backend <;> simp [constructBackend]
  · have := k1 _ h
    revert this
    cases plat <;> cases Opts.Backend <;> simp [constructBackend] <;> exact fun h => h.symm
  · refine k2 _ ?_ hl
    rw [hb]
    cases plat <;> rfl
  · refine k3 ?_
    rcases h with ⟨h1, h2⟩ | ⟨h1, h2⟩ <;> rw [h1, h2] <;> rfl
  · exact lookup_mem_values _ _ _ h
  · refine k2 _ ?_ hl
    rw [hp, hb]
    rfl
  · refine k2 _ ?_ hl
    rw [hp, hb]
    rfl
  · exact k2 _ ((selectable_iff_constructed plat _).mp hs) hl

theorem backend_table_and_switch_witness :
    (main Platform.Linux okEnv Subcommand.fuzz whvEdgeOpts).exit = EXIT_FAILURE ∧
      Event.newBackend BackendType_t.Kvm ∈
        (main Platform.Linux okEnv Subcommand.fuzz kvmOpts).events ∧
      (main Platform.Windows okEnv Subcommand.fuzz kvmOpts) =
        ⟨[Event.TargetsGet "hevd" true, Event.LoadCpuStateFromJSON true], EXIT_FAILURE⟩ ∧
      (main Platform.Windows okEnv Subcommand.fuzz kvmOpts).exit = EXIT_FAILURE ∧
      (Event.LoadCpuStateFromJSON true ∈
          (main Platform.Windows okEnv Subcommand.fuzz whvOpts).events ∧
        Event.newBackend BackendType_t.Whv ∈
          (main Platform.Windows okEnv Subcommand.fuzz whvOpts).events) ∧
      (Event.LoadCpuStateFromJSON true ∈
          (main Platform.Linux okEnv Subcommand.run kvmOpts).events ∧
        Event.newBackend BackendType_t.Kvm ∈
          (main Platform.Linux okEnv Subcommand.run kvmOpts).events) ∧
      backendOption Platform.Windows "WHV" = some BackendType_t.Whv ∧
      backendOption Platform.Linux "whv" = none ∧
      backendOption Platform.Linux "BxCpu" = some BackendType_t.Bochscpu :=
  ⟨by decide, by decide, by decide,
    ((backend_table_and_switch Platform.Windows okEnv Subcommand.fuzz kvmOpts).2.2.2.2.2.1
      (Or.inr ⟨rfl, rfl⟩)).2 (by decide),
    ⟨by decide,
      (backend_table_and_switch Platform.Windows okEnv Subcommand.fuzz
        whvOpts).2.2.2.2.2.2.2.2.1 rfl rfl (by decide)⟩,
    ⟨by decide,
      (backend_table_and_switch Platform.Linux okEnv Subcommand.run
        kvmOpts).2.2.2.2.2.2.2.2.2.1 rfl rfl (by decide)⟩,
    by decide, by decide, by decide⟩

/-! ## The options handed to `RunSubcommand` -/

theorem afterParse_RunSubcommand (plat : Platform) (env : Env) (sub : Subcommand)
    (Opts O : Options_t) (h : Event.RunSubcommand O ∈ (afterParse plat env sub Opts).events) :
    sub = Subcommand.run ∧ O = Opts := by
  have h1 : Event.RunSubcommand O ∈ (restoreAndDispatch env sub Opts).events →
      sub = Subcommand.run ∧ O = Opts := by
    unfold restoreAndDispatch dispatch Execution.after
    split_ifs with a b c <;> simp
    exact fun h => ⟨c, h⟩
  have h2 : Event.RunSubcommand O ∈ (singleStep env sub Opts).events →
      sub = Subcommand.run ∧ O = Opts := by
    unfold singleStep Execution.after
    split_ifs <;> (try simp) <;> exact h1
  have h3 : Event.RunSubcommand O ∈ (startBackend env sub Opts).events →
      sub = Subcommand.run ∧ O = Opts := by
    unfold startBackend Execution.after
    split_ifs <;> (try simp) <;> exact h2
  revert h
  unfold afterParse Execution.after
  cases constructBackend plat Opts.Backend <;> simp only [] <;> split_ifs <;> (try simp) <;>
    exact h3

theorem normaliseRun_traced (env : Env) (Opts : Options_t) :
    (normaliseRun env Opts).Run.TraceType ≠ TraceType_t.NoTrace ↔
      (Opts.Run.BaseTracePath ≠ "" ∨ Opts.Run.TraceType ≠ TraceType_t.NoTrace) := by
  rw [normaliseRun_Run, (defaultTracePath_keeps env (defaultTraceType Opts)).2.2.2.2.2.2]
  unfold defaultTraceType
  by_cases hp : Opts.Run.BaseTracePath = "" <;>
    by_cases ht : Opts.Run.TraceType = TraceType_t.NoTrace <;>
    cases hb : Opts.Backend <;> simp [hp, ht]

/-- C8 (amended): the options `main` hands to `RunSubcommand` are the options the run
callback normalised, and their trace type is different from NoTrace exactly when a
trace path or a trace type was given on the command line; with neither, `RunSubcommand`
receives the trace type NoTrace. -/
theorem run_subcommand_trace_type (plat : Platform) (env : Env) (sub : Subcommand)
    (Opts O : Options_t) (h : Event.RunSubcommand O ∈ (main plat env sub Opts).events) :
    sub = Subcommand.run ∧ O = normaliseRun env Opts ∧
      (O.Run.TraceType ≠ TraceType_t.NoTrace ↔
        (Opts.Run.BaseTracePath ≠ "" ∨ Opts.Run.TraceType ≠ TraceType_t.NoTrace)) := by
  have key : sub = Subcommand.run ∧ O = normaliseRun env Opts := by
    obtain ⟨pre, hpre, ⟨text, -, hm⟩ | ⟨O', hO, hm⟩⟩ := main_cases plat env sub Opts
    · rw [hm] at h
      rcases hpre with rfl | rfl <;> simp at h
    · have h1 := afterParse_RunSubcommand plat env sub O' O
      have hn := (CLI11_PARSE_ok plat env sub Opts O' hO).2.2
      rw [hm] at h
      unfold Execution.after at h
      have h2 : Event.RunSubcommand O ∈ (afterParse plat env sub O').events := by
        rcases hpre with rfl | rfl <;> simpa using h
      obtain ⟨hs, rfl⟩ := h1 h2
      exact ⟨hs, hn hs⟩
  refine ⟨key.1, key.2, ?_⟩
  rw [key.2]
  exact normaliseRun_traced env Opts

theorem run_subcommand_trace_type_witness :
    Event.RunSubcommand (normaliseRun okEnv tracePathOpts) ∈
        (main Platform.Linux okEnv Subcommand.run tracePathOpts).events ∧
      (normaliseRun okEnv tracePathOpts).Run.TraceType ≠ TraceType_t.NoTrace :=
  ⟨by decide,
    (run_subcommand_trace_type Platform.Linux okEnv Subcommand.run tracePathOpts
      (normaliseRun okEnv tracePathOpts) (by decide)).2.2.mpr (Or.inl (by decide))⟩

/-- C8, as stated, fails: the run subcommand accepts a command line without any trace
option, and `main` then hands `RunSubcommand` options whose trace type is NoTrace. -/
theorem run_subcommand_without_trace :
    (RunCallback Platform.Linux okEnv plainOpts).result =
        Except.ok (normaliseRun okEnv plainOpts) ∧
      Event.RunSubcommand (normaliseRun okEnv plainOpts) ∈
        (main Platform.Linux okEnv Subcommand.run plainOpts).events ∧
      (normaliseRun okEnv plainOpts).Run.TraceType = TraceType_t.NoTrace :=
  ⟨rfl, by decide, by decide⟩

end Wtf
